import Mathlib

/-! # Verification of the GearCity design-formula engine

Shallow embedding of `src/src/design_formulas.py`: the deterministic
vehicle/engine/chassis/gearbox design and economics calculations
(displacement, horsepower, staleness penalties, modification costs,
torque compatibility, the slider-driven rating/cost/weight formulas),
together with theorems settling the specification's claims about them.

Python `dict` inputs (slider sets, sub-component ratings, spec records)
are modelled as `String → Option ℝ`; Python floats as real numbers; the
builtin `round` (banker's rounding, half to even) as `pyRound`; `x ** y`
as monoid power for integer literal exponents and as `Real.rpow` for
fractional ones.
-/

namespace DesignFormulas

/-- A Python dict holding numeric values, as the formula functions read it. -/
abbrev SDict := String → Option ℝ

/-- Safe dict get with defaults: `_s` from the source. It probes the key and
then the `slider_`/`ch_`/`g_` prefixed spellings, in order, and falls back to
the given default. -/
def _s (d : SDict) (key : String) (default : ℝ) : ℝ :=
  match d key with
  | some v => v
  | none =>
    match d ("slider_" ++ key) with
    | some v => v
    | none =>
      match d ("ch_" ++ key) with
      | some v => v
      | none =>
        match d ("g_" ++ key) with
        | some v => v
        | none => default

/-- Python `round(x)`: nearest integer, ties to the even neighbour. -/
noncomputable def pyRound (x : ℝ) : ℤ :=
  if x - ⌊x⌋ < 1/2 then ⌊x⌋
  else if 1/2 < x - ⌊x⌋ then ⌊x⌋ + 1
  else if ⌊x⌋ % 2 = 0 then ⌊x⌋ else ⌊x⌋ + 1

/-- Python `round(x, 1)`. -/
noncomputable def pyRound1 (x : ℝ) : ℝ := (pyRound (x * 10) : ℝ) / 10

/-- Python `round(x, 3)`. -/
noncomputable def pyRound3 (x : ℝ) : ℝ := (pyRound (x * 1000) : ℝ) / 1000

/-! ## Module constants (verbatim from the source header) -/

def DISPLACEMENT_CONSTANT : ℝ := 0.7854
def HP_CONVERSION_FACTOR : ℝ := 5252

def COMPONENT_SAFE_AGE : ℤ := 12
def COMPONENT_STEEP_AGE : ℤ := 15
def COMPONENT_PENALTY_RATE : ℝ := 0.05
def COMPONENT_STEEP_RATE : ℝ := 0.25
def VEHICLE_AGE_OFFSET : ℤ := 4
def VEHICLE_STALENESS_TRIGGER : ℤ := 9
def VEHICLE_STALENESS_DIVISOR : ℝ := 10.0
def VEHICLE_STALENESS_EXPONENT : ℝ := 1.6
def BUYER_DIVISOR_EXPONENT : ℝ := 1.2

def URGENCY_CRITICAL : ℝ := 3.0
def URGENCY_HIGH : ℝ := 2.0
def URGENCY_MEDIUM : ℝ := 1.5
def URGENCY_LOW : ℝ := 1.0

def MOD_BASE_PERCENT : ℤ := 15
def MOD_ENGINE_PERCENT : ℤ := 5
def MOD_GEARBOX_PERCENT : ℤ := 5
def MOD_CHASSIS_PERCENT : ℤ := 100

def REF_YEAR : ℤ := 1899
def DEFAULT_INTEREST_RATE : ℝ := 1.0
def DEFAULT_CAR_PRICE_RATE : ℝ := 1.0
def DEFAULT_GLOBAL_WEIGHT : ℝ := 230.0

/-! ## Shared math helpers -/

/-- `_yexp(base, year) = base ** (year - 1899)`. -/
noncomputable def _yexp (base : ℝ) (year : ℤ) : ℝ := base ^ (year - REF_YEAR)

/-- `_yexp_50r(year)`: `0.996 ** (2050 - year)`, a fixed value past 2020. -/
noncomputable def _yexp_50r (year : ℤ) : ℝ :=
  if year > 2020 then 0.901037361 else (0.996 : ℝ) ^ (2050 - year)

/-- `_adjusted_year(year) = year - 1899`, capped at 121. -/
def _adjusted_year (year : ℤ) : ℤ :=
  let ay := year - REF_YEAR
  if ay > 121 then 121 else ay

/-- `_clamp(value, lo, hi)`. -/
noncomputable def _clamp (value lo hi : ℝ) : ℝ := max lo (min hi value)

/-! ## A2. Engine physics -/

/-- `calc_displacement`: cc = DISPLACEMENT_CONSTANT * (bore/10)^2 * (stroke/10)
* cylinders, rounded. -/
noncomputable def calc_displacement (bore_mm stroke_mm : ℝ) (cylinders : ℤ) : ℤ :=
  let bore_cm := bore_mm / 10.0
  let stroke_cm := stroke_mm / 10.0
  pyRound (DISPLACEMENT_CONSTANT * bore_cm ^ (2 : ℕ) * stroke_cm * (cylinders : ℝ))

/-- `calc_hp`: HP = round(torque * rpm / 5252), 0 when rpm ≤ 0. -/
noncomputable def calc_hp (torque rpm : ℤ) : ℤ :=
  if rpm ≤ 0 then 0
  else pyRound (((torque * rpm : ℤ) : ℝ) / HP_CONVERSION_FACTOR)

/-! ## A4. Modification cost -/

/-- The numeric fields of `estimate_modification_cost`'s result dict. -/
structure ModCostResult where
  base_percent : ℤ
  total_percent : ℤ
  estimated_cost : ℤ

/-- `estimate_modification_cost`: chassis change is a full redesign (100%);
otherwise 15% base, plus 10% for an engine change (gearbox auto-included)
or 5% for a gearbox-only change. -/
noncomputable def estimate_modification_cost (vehicle_design_cost : ℤ)
    (engine_change gearbox_change chassis_change : Bool) : ModCostResult :=
  if chassis_change then
    { base_percent := MOD_CHASSIS_PERCENT
      total_percent := MOD_CHASSIS_PERCENT
      estimated_cost := vehicle_design_cost }
  else
    let total : ℤ :=
      if engine_change && gearbox_change then
        MOD_BASE_PERCENT + MOD_ENGINE_PERCENT + MOD_GEARBOX_PERCENT
      else if engine_change then
        MOD_BASE_PERCENT + MOD_ENGINE_PERCENT + MOD_GEARBOX_PERCENT
      else if gearbox_change then MOD_BASE_PERCENT + MOD_GEARBOX_PERCENT
      else MOD_BASE_PERCENT
    { base_percent := MOD_BASE_PERCENT
      total_percent := total
      estimated_cost := pyRound (((vehicle_design_cost * total : ℤ) : ℝ) / 100) }

/-! ## A5. Staleness -/

/-- `_component_staleness(age)`: the two accumulated penalty terms. -/
noncomputable def _component_staleness (age : ℤ) : ℝ :=
  (if age > COMPONENT_SAFE_AGE then
    ((age : ℝ) - (COMPONENT_SAFE_AGE : ℝ)) * COMPONENT_PENALTY_RATE else 0) +
  (if age > COMPONENT_STEEP_AGE then
    ((age : ℝ) - (COMPONENT_STEEP_AGE : ℝ)) * COMPONENT_STEEP_RATE else 0)

/-- `_vehicle_staleness(age)`: `((age+4)/10) ** 1.6` once the effective age
passes the trigger. -/
noncomputable def _vehicle_staleness (age : ℤ) : ℝ :=
  let effective := age + VEHICLE_AGE_OFFSET
  if effective ≤ VEHICLE_STALENESS_TRIGGER then 0
  else ((effective : ℝ) / VEHICLE_STALENESS_DIVISOR) ^ VEHICLE_STALENESS_EXPONENT

/-- The collective staleness factor computed inside `calc_staleness`:
1 plus the four penalties. -/
noncomputable def staleness_collective
    (current_year car_year engine_year chassis_year gearbox_year : ℤ) : ℝ :=
  1.0 + _vehicle_staleness (current_year - car_year)
      + _component_staleness (current_year - engine_year)
      + _component_staleness (current_year - chassis_year)
      + _component_staleness (current_year - gearbox_year)

/-- The buyer divisor computed inside `calc_staleness`: `collective ** 1.2`
when the collective factor exceeds 1, else 1. -/
noncomputable def staleness_buyer_divisor (collective_age : ℝ) : ℝ :=
  if collective_age > 1.0 then collective_age ^ BUYER_DIVISOR_EXPONENT else 1.0

/-- The urgency classification computed inside `calc_staleness`. -/
noncomputable def staleness_urgency (buyer_divisor : ℝ) : String :=
  if buyer_divisor ≥ URGENCY_CRITICAL then "critical"
  else if buyer_divisor ≥ URGENCY_HIGH then "high"
  else if buyer_divisor ≥ URGENCY_MEDIUM then "medium"
  else if buyer_divisor > URGENCY_LOW then "low"
  else "none"

/-- The numeric fields of `calc_staleness`'s result dict (the per-component
details flattened; the `round(x, 3)` display rounding of the source kept). -/
structure StalenessResult where
  collective_age : ℝ
  buyer_divisor : ℝ
  percent_retained : ℝ
  vehicle_age : ℤ
  vehicle_penalty : ℝ
  engine_age : ℤ
  engine_penalty : ℝ
  chassis_age : ℤ
  chassis_penalty : ℝ
  gearbox_age : ℤ
  gearbox_penalty : ℝ
  urgency : String

/-- `calc_staleness`. -/
noncomputable def calc_staleness
    (current_year car_year engine_year chassis_year gearbox_year : ℤ) : StalenessResult :=
  let car_age := current_year - car_year
  let engine_age := current_year - engine_year
  let chassis_age := current_year - chassis_year
  let gearbox_age := current_year - gearbox_year
  let car_penalty := _vehicle_staleness car_age
  let engine_penalty := _component_staleness engine_age
  let chassis_penalty := _component_staleness chassis_age
  let gearbox_penalty := _component_staleness gearbox_age
  let collective_age := 1.0 + car_penalty + engine_penalty + chassis_penalty + gearbox_penalty
  let buyer_divisor := staleness_buyer_divisor collective_age
  let percent_retained := if buyer_divisor > 0 then pyRound1 (100.0 / buyer_divisor) else 0.0
  { collective_age := pyRound3 collective_age
    buyer_divisor := pyRound3 buyer_divisor
    percent_retained := percent_retained
    vehicle_age := car_age
    vehicle_penalty := pyRound3 car_penalty
    engine_age := engine_age
    engine_penalty := pyRound3 engine_penalty
    chassis_age := chassis_age
    chassis_penalty := pyRound3 chassis_penalty
    gearbox_age := gearbox_age
    gearbox_penalty := pyRound3 gearbox_penalty
    urgency := staleness_urgency buyer_divisor }

/-! ## A7. Torque compatibility -/

/-- The fields of `check_torque_compatibility`'s result dict (`has_warning`
records whether the `warning` entry is a message rather than `None`). -/
structure TorqueCompatResult where
  compatible : Bool
  engine_torque : ℤ
  gearbox_max_torque : ℤ
  overflow_nm : Option ℤ
  overflow_percent : Option ℝ
  headroom_nm : Option ℤ
  headroom_percent : Option ℝ
  has_warning : Bool

/-- `check_torque_compatibility`. -/
noncomputable def check_torque_compatibility
    (engine_torque gearbox_max_torque : ℤ) : TorqueCompatResult :=
  if gearbox_max_torque ≤ 0 then
    { compatible := true
      engine_torque := engine_torque
      gearbox_max_torque := gearbox_max_torque
      overflow_nm := none
      overflow_percent := some 0
      headroom_nm := none
      headroom_percent := none
      has_warning := true }
  else
    let overflow := engine_torque - gearbox_max_torque
    let overflow_pct := pyRound1 ((overflow : ℝ) / (gearbox_max_torque : ℝ) * 100)
    if overflow > 0 then
      { compatible := false
        engine_torque := engine_torque
        gearbox_max_torque := gearbox_max_torque
        overflow_nm := some overflow
        overflow_percent := some overflow_pct
        headroom_nm := none
        headroom_percent := none
        has_warning := true }
    else
      let headroom := -overflow
      let headroom_pct := pyRound1 ((headroom : ℝ) / (gearbox_max_torque : ℝ) * 100)
      { compatible := true
        engine_torque := engine_torque
        gearbox_max_torque := gearbox_max_torque
        overflow_nm := none
        overflow_percent := none
        headroom_nm := some headroom
        headroom_percent := some headroom_pct
        has_warning := false }

/-! ## B1. Engine formulas -/

/-- `calc_engine_torque` (lb-ft). -/
noncomputable def calc_engine_torque (sliders sub : SDict) (year skill : ℤ)
    (bore_mm stroke_mm : ℝ) (cylinders : ℤ) : ℝ :=
  let s_torq := _s sliders "torq" 0.0
  let s_eco := _s sliders "eco" 0.0
  let s_dp := _s sliders "designperformance" 0.0
  let s_dfe := _s sliders "designfueleco" 0.0
  let s_tech_comp := _s sliders "compoenents" 0.0
  let s_tech_mat := _s sliders "materials" 0.0
  let s_tech_tech := _s sliders "tech" 0.0
  let s_tech_tec := _s sliders "techniques" 0.0
  let lay_len := _s sub "Layout_Length" 1.0
  let lay_wid := _s sub "Layout_Width" 1.0
  let lay_pwr := _s sub "Layout_PowerRatings" 1.0
  let cyl_pwr := _s sub "Cylinders_PowerRating" 1.0
  let fuel_pwr := _s sub "FuelType_PowerRating" 1.0
  let indu_pwr := _s sub "Induction_PowerRating" 0.1
  let valve_pwr := _s sub "Valve_PowerRating" 1.0
  let cyl_count := _s sub "Cylinders_CylinderCount" (cylinders : ℝ)
  let e01 := _yexp 1.01 year
  let e005 := _yexp 1.005 year
  let e004 := _yexp 1.004 year
  let e0024 := _yexp 1.0024 year
  let torque0 := 10.0 + ((skill : ℝ) / 20.0)
  let torque1 := torque0 +
    ((25.0 * ((s_torq - 0.4) * 1.5) * e01) +
     (4.0 * (lay_len + lay_wid) * e005) -
     (14.0 * (s_eco + s_dfe) * e004) +
     (lay_pwr * 5.0 + cyl_pwr * 13.0 + fuel_pwr * 24.0 + 100.0 * indu_pwr +
      (5.0 * e004 * s_dp) +
      8.0 * (s_tech_comp + s_tech_mat + s_tech_tech + s_tech_tec)) * e0024)
  let disp_factor := (cyl_count * stroke_mm * 0.93 * bore_mm * 0.9) * 0.000027 + 5.0
  let torque2 := torque1 * disp_factor
  let torque3 := if year < 2050 then torque2 * _yexp_50r year else torque2
  let torque4 := torque3 * valve_pwr
  max torque4 0.0

/-- `calc_engine_rpm`. -/
noncomputable def calc_engine_rpm (sliders sub : SDict) (year skill : ℤ) : ℝ :=
  let s_rpm := _s sliders "rpm" 0.0
  let s_dp := _s sliders "designperformance" 0.0
  let s_dfe := _s sliders "designfueleco" 0.0
  let s_eco := _s sliders "eco" 0.0
  let s_weight := _s sliders "weight" 0.0
  let s_tech_comp := _s sliders "compoenents" 0.0
  let s_tech_mat := _s sliders "materials" 0.0
  let s_tech_tec := _s sliders "techniques" 0.0
  let fuel_rpm := _s sub "FuelType_RPM" 1.0
  let valve_rpm := _s sub "Valve_RPM" 1.0
  let indu_pwr := _s sub "Induction_PowerRating" 0.1
  let stroke_mm := _s sub "stroke_mm" 80.0
  let ay := _adjusted_year year
  let tmp_ay : ℝ := if ay > 80 then 80 + (((ay : ℝ) - 80) / 5.0) else (ay : ℝ)
  let e01 := _yexp 1.01 year
  let e005 := _yexp 1.005 year
  let e0105 := _yexp 1.0105 year
  let rpm0 :=
    (tmp_ay ^ (4 : ℕ)) * 0.00000420875 -
    (19.0 * (tmp_ay ^ (3 : ℕ))) * 0.00016835 +
    (427.0 * (tmp_ay ^ (2 : ℕ))) * 0.00126 +
    (1315.0 * tmp_ay) * 0.01515 + 620.0
  let rpm1 := rpm0 + 265.0 * e01 * s_dp
  let rpm2 := rpm1 + 465.0 * e0105 * (s_rpm * 5.5)
  let rpm3 := rpm2 - 10.0 * e01 * indu_pwr
  let rpm4 := rpm3 + 55.0 * e005 * (1.0 - s_weight)
  let rpm5 := rpm4 - 30.0 * e005 * (s_dfe + s_eco)
  let rpm6 := rpm5 + 25.0 * e01 * s_tech_comp
  let rpm7 := rpm6 + 25.0 * e01 * s_tech_mat
  let rpm8 := rpm7 + 25.0 * e01 * s_tech_tec
  let rpm9 := rpm8 * fuel_rpm * valve_rpm
  let rpm10 := if stroke_mm > 0 then rpm9 - ((rpm9 / 1.5) * (stroke_mm / 221.136364)) else rpm9
  max rpm10 25.0

/-- `calc_engine_power_rating`. -/
noncomputable def calc_engine_power_rating (torque : ℝ) (year : ℤ) (cylinders : ℤ) : ℝ :=
  if cylinders ≤ 0 then 0.0
  else
    let e007 := _yexp 1.007 year
    let pr := torque / ((100.0 * e007) * (cylinders : ℝ) / 2.2)
    let pr1 := pr * 50.0
    let pr2 := if pr1 > 50.0 then 50.0 else pr1
    let pr3 := pr2 + 50.0 * (torque / 2000.0)
    _clamp pr3 0.0 100.0

/-- `calc_engine_fuel_eco_rating`. -/
noncomputable def calc_engine_fuel_eco_rating (mpg : ℝ) : ℝ :=
  _clamp ((mpg / 120.0) * 100.0) 0.0 100.0

/-- `calc_engine_reliability_rating`. -/
noncomputable def calc_engine_reliability_rating (sliders sub : SDict)
    (year skill : ℤ) (rpm : ℝ) (stroke_mm : ℝ) : ℝ :=
  let s_dd := _s sliders "designdependability" 0.0
  let s_dp := _s sliders "designperformance" 0.0
  let s_torq := _s sliders "torq" 0.0
  let s_rpm := _s sliders "rpm" 0.0
  let s_tech_comp := _s sliders "compoenents" 0.0
  let s_tech_mat := _s sliders "materials" 0.0
  let s_tech_tech := _s sliders "tech" 0.0
  let s_tech_tec := _s sliders "techniques" 0.0
  let cyl_rel := _s sub "Cylinders_ReliabilityRating" 1.0
  let fuel_rel := _s sub "FuelType_ReliabilityRating" 1.0
  let indu_rel := _s sub "Induction_ReliabilityRating" 0.5
  let lay_rel := _s sub "Layout_Reliability" 1.0
  let valve_rel := _s sub "Valve_ReliabilityRating" 1.0
  let r0 := (6.0 * s_dd +
    3.0 * (1.0 - s_dp) +
    5.0 * (1.0 - (rpm / 10000.0)) +
    2.0 * (1.0 - s_torq) +
    3.0 * (1.0 - s_rpm) +
    3.0 * s_tech_comp +
    2.0 * s_tech_mat +
    (1.0 - s_tech_tech) +
    s_tech_tec)
  let r1 := r0 + (1.0 * cyl_rel + 1.0 * fuel_rel +
    1.0 * (1.0 - indu_rel) + 1.0 * lay_rel +
    2.0 * valve_rel)
  let r2 := r1 + 8.0 * (1.0 - (stroke_mm / 150.0))
  let r3 := (r2 / 4.5) * 10.0
  let r4 := r3 + (skill : ℝ) / 10.0
  _clamp r4 0.0 100.0

/-- `calc_engine_smoothness_rating` (clamped to [1, 100]). -/
noncomputable def calc_engine_smoothness_rating (sliders sub : SDict)
    (cylinders skill : ℤ) : ℝ :=
  let s_tech_comp := _s sliders "compoenents" 0.0
  let s_tech_tech := _s sliders "tech" 0.0
  let s_tech_tec := _s sliders "techniques" 0.0
  let cyl_smooth := _s sub "Cylinders_SmoothnessRating" 1.0
  let fuel_smooth := _s sub "FuelType_SmoothnessRating" 1.0
  let lay_smooth := _s sub "Layout_Smoothness" 1.0
  let valve_smooth := _s sub "Valve_SmoothnessRating" 1.0
  let r0 := -(1.0 / 10.0) * (((cylinders : ℝ) - 8) * ((cylinders : ℝ) - 8)) + 5.0
  let r1 := r0 + (cyl_smooth * 2.0 + fuel_smooth * 2.0 + lay_smooth * 2.0 +
    s_tech_comp * 3.0 + s_tech_tech * 2.0 + s_tech_tec * 3.0 +
    valve_smooth * 2.0 + (skill : ℝ) / 25.0)
  let r2 := r1 * 4.0
  _clamp r2 1.0 100.0

/-- `calc_engine_unit_cost`. -/
noncomputable def calc_engine_unit_cost (sliders sub : SDict) (year skill : ℤ)
    (cylinders : ℤ) (interest_rate car_price_rate : ℝ) : ℝ :=
  let sl := _s sliders "length" 0.0
  let sw := _s sliders "width" 0.0
  let s_rpm := _s sliders "rpm" 0.0
  let s_torq := _s sliders "torq" 0.0
  let s_eco := _s sliders "eco" 0.0
  let s_dp := _s sliders "designperformance" 0.0
  let s_dfe := _s sliders "designfueleco" 0.0
  let s_dd := _s sliders "designdependability" 0.0
  let s_displace := _s sliders "displace" 0.0
  let s_weight := _s sliders "weight" 0.0
  let s_tech_mat := _s sliders "materials" 0.0
  let s_tech_tec := _s sliders "techniques" 0.0
  let s_tech_comp := _s sliders "compoenents" 0.0
  let s_tech_tech := _s sliders "tech" 0.0
  let cyl_uc := _s sub "Cylinders_UnitCosts" 1.0
  let lay_uc := _s sub "Layout_UnitCosts" 1.0
  let valve_uc := _s sub "Valve_UnitCosts" 1.0
  let indu_uc := _s sub "Induction_UnitCosts" 1.0
  let fuel_uc := _s sub "FuelType_UnitCosts" 1.0
  let cyl_count := _s sub "Cylinders_CylinderCount" (cylinders : ℝ)
  let e01 := _yexp 1.01 year
  let e004 := _yexp 1.004 year
  let e008 := _yexp 1.008 year
  let e003 := _yexp 1.003 year
  let e0035 := _yexp 1.0035 year
  let e006 := _yexp 1.006 year
  let e005 := _yexp 1.005 year
  let e04 := _yexp 1.04 year
  let uc0 :=
    70.0 * e01 * (((1.0 - sl) + (1.0 - sw)) / 2.0) +
    220.0 * e004 * (((0.25 + s_rpm ^ (2 : ℕ) + s_torq ^ (2 : ℕ)) / 2.0) -
      (0.5 - s_eco ^ (2 : ℕ))) +
    60.0 * e01 * (s_rpm ^ (2 : ℕ) + s_torq ^ (2 : ℕ)) +
    220.0 * e008 * (0.1 + s_tech_mat ^ (2 : ℕ) + s_tech_tec ^ (2 : ℕ) +
      s_tech_comp ^ (2 : ℕ)) +
    170.0 * e008 * (s_tech_tech ^ (2 : ℕ)) +
    50.0 * e0035 * (s_dd ^ (2 : ℕ)) +
    180.0 * e0035 * (s_dp ^ (2 : ℕ)) +
    (260.0 * e006 * (2.168 * s_displace ^ (1.5 : ℝ) - 4.44 * s_displace ^ (3 : ℕ) +
       2.646 * s_displace ^ (4.5 : ℝ) + 3.126 * s_displace ^ (6 : ℕ)) +
     (70.0 * e005 * (cyl_count / 6.0) +
      0.75 + s_displace ^ (1.5 : ℝ) - s_weight ^ (2 : ℕ)) +
     10.0 * (s_dfe ^ (2 : ℕ)) - 50.0) * e003
  let uc1 := uc0 + (160.0 * cyl_uc) ^ e003
  let uc2 := uc1 + (120.0 * lay_uc) ^ e004
  let uc3 := uc2 + (140.0 * valve_uc) ^ e004
  let uc4 := uc3 + (435.0 * indu_uc) ^ e004
  let uc5 := uc4 + (120.0 * fuel_uc) ^ e004
  let uc6 := uc5 * (0.125 + 0.12 * cyl_count)
  let uc7 := uc6 * (interest_rate / 2.0) + 50.0
  let uc8 := uc7 * car_price_rate
  let hyper := ((s_displace * 2.0 + (1.0 - sl) + (1.0 - sw) + (1.0 - s_weight) +
    s_rpm + s_torq + s_eco + s_dp + s_dfe + s_dd +
    s_tech_mat + s_tech_comp + s_tech_tec + s_tech_tech) / 13.0)
  let hyper_cost := 475.0 * e04 * (hyper ^ (4 : ℕ))
  let uc9 := uc8 + hyper_cost - ((uc8 / 10.0) * ((skill : ℝ) / 100.0))
  max uc9 0.0

/-- `calc_engine_design_cost`. -/
noncomputable def calc_engine_design_cost (sliders sub : SDict) (year : ℤ)
    (cylinders : ℤ) (interest_rate : ℝ) : ℝ :=
  let s_displace := _s sliders "displace" 0.0
  let s_weight := _s sliders "weight" 0.0
  let sl := _s sliders "length" 0.0
  let sw := _s sliders "width" 0.0
  let s_rpm := _s sliders "rpm" 0.0
  let s_torq := _s sliders "torq" 0.0
  let s_eco := _s sliders "eco" 0.0
  let s_dp := _s sliders "designperformance" 0.0
  let s_dfe := _s sliders "designfueleco" 0.0
  let s_dd := _s sliders "designdependability" 0.0
  let s_tech_mat := _s sliders "materials" 0.0
  let s_tech_tec := _s sliders "techniques" 0.0
  let s_tech_comp := _s sliders "compoenents" 0.0
  let s_tech_tech := _s sliders "tech" 0.0
  let s_pace := _s sliders "design_pace" (_s sliders "engine_design_pace"
    (_s sliders "DesignPace" 0.35))
  let cyl_dc := _s sub "Cylinders_DesignCosts" 1.0
  let lay_dc := _s sub "Layout_DesignCosts" 1.0
  let indu_dc := _s sub "Induction_DesignCosts" 1.0
  let valve_uc := _s sub "Valve_UnitCosts" 1.0
  let fuel_dc := _s sub "FuelType_DesignCosts" 1.0
  let cyl_count := _s sub "Cylinders_CylinderCount" (cylinders : ℝ)
  let e025 := _yexp 1.025 year
  let e033 := _yexp 1.033 year
  let e05 := _yexp 1.05 year
  let e039 := _yexp 1.039 year
  let e03 := _yexp 1.03 year
  let e038 := _yexp 1.038 year
  let e035 := _yexp 1.035 year
  let e01 := _yexp 1.01 year
  let e04 := _yexp 1.04 year
  let e003 := _yexp 1.003 year
  let hyper := ((s_displace * 2.0 + (1.0 - sl) + (1.0 - sw) + (1.0 - s_weight) +
    s_rpm + s_torq + s_eco + s_dp + s_dfe + s_dd +
    s_tech_mat + s_tech_comp + s_tech_tec + s_tech_tech) / 13.0)
  let hyper_cost := 475.0 * e04 * (hyper ^ (4 : ℕ))
  let focus_exp := (0.1 + s_dp ^ (2 : ℕ) + s_dd ^ (2 : ℕ) + s_dfe ^ (2 : ℕ))
  let tech_base := (0.15 + s_tech_mat ^ (2 : ℕ) + s_tech_tec ^ (2 : ℕ) +
    s_tech_comp ^ (2 : ℕ))
  let dc0 := (
    18000.0 * (0.05 + s_displace ^ (1.5 : ℝ)) * e025 +
    4000.0 * (1.0 - s_weight ^ (2 : ℕ)) * e033 +
    5000.0 * (tech_base ^ focus_exp) * e033 +
    2500.0 * ((1.01 - s_weight) ^ (2 : ℕ)) * e033 -
    2500.0 * e033 * ((1.0 - sw) + (1.0 - sl)) +
    12000.0 * (0.2 + s_dp ^ (2 : ℕ) + s_dfe ^ (2 : ℕ)) * e05 +
    1500.0 * (3.5 + s_dd ^ (2 : ℕ)) * e039) * e03
  let dc1 := dc0 + 4000.0 * (s_eco ^ (2 : ℕ) + s_rpm ^ (2 : ℕ) + s_torq ^ (2 : ℕ)) * e038
  let dc2 := dc1 + 3000.0 * (s_tech_tech ^ (2 : ℕ)) * e035
  let dc3 := dc2 + hyper_cost * (500.0 * e035)
  let dc4 := dc3 + (95.0 * cyl_dc) ^ e01
  let dc5 := dc4 + (115.0 * lay_dc) ^ e01
  let dc6 := dc5 + (195.0 * indu_dc) ^ e01
  let dc7 := dc6 + (90.0 * valve_uc) ^ e01
  let dc8 := dc7 + (90.0 * fuel_dc) ^ e01 * interest_rate
  let dc9 := dc8 * e003
  let dc10 :=
    if 1910 < year ∧ year < 1930 then
      dc9 * (cyl_count * (1.0 - 0.0375 * ((year : ℝ) - 1910)))
    else if 1930 < year ∧ year < 1950 then
      dc9 * (cyl_count * (0.25 - 0.005 * ((year : ℝ) - 1930)))
    else if year > 1950 then dc9 * (cyl_count * 0.15)
    else dc9
  let dc11 := (dc10 * 0.85) + (dc10 * 0.15 * cyl_dc)
  let dc12 := (dc11 / 5.0) + (dc11 * (s_pace ^ (2 : ℕ) * 4.5))
  max dc12 0.0

/-- The in-place mutation `estimate_engine_full` performs on its `sub` dict
before computing: `sub["stroke_mm"] = stroke_mm` followed by
`sub.setdefault("Cylinders_CylinderCount", cylinders)`, as an explicit state
transformer. -/
def dict_set (d : SDict) (k : String) (v : ℝ) : SDict :=
  fun key => if key = k then some v else d key

/-- Python `dict.setdefault(k, v)`: store `v` under `k` only when `k` is
absent; the dict after the call. -/
def dict_setdefault (d : SDict) (k : String) (v : ℝ) : SDict :=
  fun key => if key = k then some ((d k).getD v) else d key

/-- The `sub` dict after `estimate_engine_full(sliders, sub, year, skill,
bore_mm, stroke_mm, cylinders)` returns. -/
def estimate_engine_full_sub_effect (sub : SDict) (stroke_mm : ℝ) (cylinders : ℤ) : SDict :=
  dict_setdefault (dict_set sub "stroke_mm" stroke_mm) "Cylinders_CylinderCount" (cylinders : ℝ)

/-! ## B2. Chassis formulas -/

/-- `calc_chassis_weight` (kg). -/
noncomputable def calc_chassis_weight (sliders sub : SDict) (year : ℤ)
    (global_weight : ℝ) : ℝ :=
  let s_w := _s sliders "FD_Weight" 0.0
  let s_l := _s sliders "FD_Length" 0.0
  let s_wd := _s sliders "FD_Width" 0.0
  let s_h := _s sliders "FD_Height" 0.0
  let s_tm := _s sliders "TECH_Materials" 0.0
  let s_tt := _s sliders "TECH_Techniques" 0.0
  let s_dp := _s sliders "DE_Performance" 0.0
  let fr_wt := _s sub "Frame_Weight" 0.6
  let dr_wt := _s sub "Drive_Weight" 0.5
  let gw := global_weight
  let w0 := 40.0 + (
    gw * (1.25 * s_w + 0.1) +
    gw * 0.5 * (6.0 * s_l + 0.1) +
    (gw / 15.0) * (3.3 * s_wd + 0.1) +
    (gw / 20.0) * (2.0 * s_h + 0.1) +
    (gw / 5.0) * (5.0 * fr_wt + 0.1) +
    (gw / 10.0) * (3.0 * dr_wt + 0.1) -
    (gw / 5.0) * s_tm -
    (gw / 8.0) * s_dp -
    (gw / 11.0) * s_tt)
  let w1 :=
    if year < 1981 then w0 / (2.0 * _yexp 0.9962 year)
    else w0 / 1.469262941607760500229789005264
  max w1 10.0

/-- `calc_chassis_comfort_rating`. -/
noncomputable def calc_chassis_comfort_rating (sliders sub : SDict) (skill : ℤ) : ℝ :=
  let s_ctrl := _s sliders "DE_Control" 0.0
  let s_w := _s sliders "FD_Weight" 0.0
  let s_brk := _s sliders "SUS_Braking" 0.0
  let s_comf := _s sliders "SUS_Comfort" 0.0
  let s_stab := _s sliders "SUS_Stability" 0.0
  let s_tc := _s sliders "TECH_Compoenents" 0.0
  let s_tm := _s sliders "TECH_Materials" 0.0
  let s_tt := _s sliders "TECH_Tech" 0.0
  let s_tq := _s sliders "TECH_Techniques" 0.0
  let dr_steer := _s sub "Drive_rideSteering" 0.5
  let fr_brk := _s sub "FrSus_Braking" 0.5
  let rr_brk := _s sub "RrSus_Braking" 0.5
  let fr_comf := _s sub "FrSus_Comfort" 0.5
  let rr_comf := _s sub "RrSus_Comfort" 0.5
  let fr_steer := _s sub "FrSus_Steering" 0.5
  let rr_steer := _s sub "RrSus_Steering" 0.5
  let r0 := (s_ctrl + dr_steer + s_w +
    (fr_brk + rr_brk + s_brk * 4.5) +
    (fr_comf + rr_comf + s_comf * 6.0) +
    (fr_steer + rr_steer + s_stab * 4.5) +
    ((s_tc + s_tm + s_tt + s_tq) / 2.0))
  let r1 := (r0 / 2.6) * 10.0
  let r2 := r1 + 10.0 * ((skill : ℝ) / 100.0)
  _clamp r2 0.0 100.0

/-- `calc_chassis_performance_rating`. -/
noncomputable def calc_chassis_performance_rating (sliders sub : SDict) (skill : ℤ) : ℝ :=
  let s_brk := _s sliders "SUS_Braking" 0.0
  let s_dp := _s sliders "DE_Performance" 0.0
  let s_w := _s sliders "FD_Weight" 0.0
  let s_perf := _s sliders "SUS_Performance" 0.0
  let s_stab := _s sliders "SUS_Stability" 0.0
  let s_l := _s sliders "FD_Length" 0.0
  let s_wd := _s sliders "FD_Width" 0.0
  let s_tc := _s sliders "TECH_Compoenents" 0.0
  let s_tm := _s sliders "TECH_Materials" 0.0
  let s_tt := _s sliders "TECH_Tech" 0.0
  let s_tq := _s sliders "TECH_Techniques" 0.0
  let fr_steer := _s sub "FrSus_Steering" 0.5
  let rr_steer := _s sub "RrSus_Steering" 0.5
  let fr_perf := _s sub "FrSus_Performance" 0.5
  let rr_perf := _s sub "RrSus_Performance" 0.5
  let fr_frame_perf := _s sub "Frame_Performance" 0.5
  let dr_perf := _s sub "Drive_carPerformance" 0.5
  let r0 := (s_brk * 2.0 + s_dp - s_w * 2.0 + s_perf * 4.0 +
    fr_steer + rr_steer +
    (s_tc + s_tm * 2.0 + s_tt + s_tq) / 2.0 +
    fr_perf + rr_perf + fr_frame_perf + dr_perf * 2.0 -
    (s_l + s_wd) + (1.0 - s_stab))
  let r1 := (r0 / 2.0) * 10.0
  let r2 := r1 + 10.0 * ((skill : ℝ) / 100.0)
  _clamp r2 0.0 100.0

/-- `calc_chassis_strength_rating`. -/
noncomputable def calc_chassis_strength_rating (sliders sub : SDict) (skill : ℤ) : ℝ :=
  let s_w := _s sliders "FD_Weight" 0.0
  let s_h := _s sliders "FD_Height" 0.0
  let s_l := _s sliders "FD_Length" 0.0
  let s_str := _s sliders "DE_Str" 0.0
  let s_tc := _s sliders "TECH_Compoenents" 0.0
  let s_tm := _s sliders "TECH_Materials" 0.0
  let s_tt := _s sliders "TECH_Tech" 0.0
  let s_tq := _s sliders "TECH_Techniques" 0.0
  let dr_wt := _s sub "Drive_Weight" 0.5
  let fr_wt := _s sub "Frame_Weight" 0.6
  let dr_dur := _s sub "Drive_Duriblity" 0.5
  let fr_dur := _s sub "Frame_Durability" 0.5
  let rr_dur := _s sub "RrSus_Durability" 0.5
  let fr_s_dur := _s sub "FrSus_Durability" 0.5
  let fr_str := _s sub "Frame_STR" 0.5
  let r0 := (((dr_wt + fr_wt) / 4.0) + s_w * 2.0 +
    ((dr_dur + fr_dur + rr_dur + fr_s_dur) / 6.0) +
    s_h * 5.0 + fr_str * 8.0 + s_str +
    ((s_tc * 2.0 + s_tm * 2.0 + s_tt * 2.0 + s_tq * 2.0) / 2.0) + s_l)
  let r1 := (r0 / 2.6) * 10.0
  let r2 := r1 + 10.0 * ((skill : ℝ) / 100.0)
  _clamp r2 0.0 100.0

/-- `calc_chassis_dependability_rating`. -/
noncomputable def calc_chassis_dependability_rating (sliders sub : SDict) (skill : ℤ) : ℝ :=
  let s_dep := _s sliders "DE_Depend" 0.0
  let s_dur := _s sliders "SUS_Durability" 0.0
  let s_tc := _s sliders "TECH_Compoenents" 0.0
  let s_tm := _s sliders "TECH_Materials" 0.0
  let s_tt := _s sliders "TECH_Tech" 0.0
  let s_tq := _s sliders "TECH_Techniques" 0.0
  let dr_dur := _s sub "Drive_Duriblity" 0.5
  let fr_dur := _s sub "Frame_Durability" 0.5
  let fr_s_dur := _s sub "FrSus_Durability" 0.5
  let rr_dur := _s sub "RrSus_Durability" 0.5
  let r0 := (s_dep * 0.5 + dr_dur * 1.5 + fr_dur * 1.5 +
    (fr_s_dur + rr_dur) / 2.0 +
    s_dur * 2.5 +
    (s_tc + s_tm + s_tq - s_tt))
  let r1 := r0 * 10.0
  let r2 := r1 + 10.0 * ((skill : ℝ) / 100.0)
  _clamp r2 0.0 100.0

/-- `calc_chassis_unit_cost`. -/
noncomputable def calc_chassis_unit_cost (sliders sub : SDict) (year skill : ℤ)
    (car_price_rate : ℝ) : ℝ :=
  let s_h := _s sliders "FD_Height" 0.0
  let s_l := _s sliders "FD_Length" 0.0
  let s_wd := _s sliders "FD_Width" 0.0
  let s_w := _s sliders "FD_Weight" 0.0
  let s_el := _s sliders "FD_ENG_Length" 0.0
  let s_ew := _s sliders "FD_ENG_Width" 0.0
  let s_brk := _s sliders "SUS_Braking" 0.0
  let s_comf := _s sliders "SUS_Comfort" 0.0
  let s_perf := _s sliders "SUS_Performance" 0.0
  let s_dur := _s sliders "SUS_Durability" 0.0
  let s_stab := _s sliders "SUS_Stability" 0.0
  let s_tc := _s sliders "TECH_Compoenents" 0.0
  let s_tm := _s sliders "TECH_Materials" 0.0
  let s_tt := _s sliders "TECH_Tech" 0.0
  let s_tq := _s sliders "TECH_Techniques" 0.0
  let dr_cost := _s sub "Drive_Cost" 1.0
  let fr_cost := _s sub "Frame_Cost" 1.0
  let fr_sus_cost := _s sub "FrSus_Cost" 1.0
  let rr_sus_cost := _s sub "RrSus_Cost" 1.0
  let e015 := _yexp 1.015 year
  let e02 := _yexp 1.02 year
  let dim_sl := (s_h ^ (2 : ℕ) + s_l ^ (2 : ℕ) * 1.2 + s_wd ^ (2 : ℕ) +
    (1.0 - s_w) ^ (2 : ℕ) + s_el ^ (2 : ℕ) * 0.8 + s_ew ^ (2 : ℕ) * 0.8)
  let c_frame0 := dim_sl * 25.0 * e015 * dr_cost * fr_cost * e015 * car_price_rate
  let c_frame := 15.0 * e02 + c_frame0 + 1.0 + 0.04 * c_frame0 +
    15.0 * e015 * dr_cost + 15.0 * e015 * fr_cost
  let sus_sl := (s_brk ^ (2 : ℕ) * 0.75 + s_comf ^ (2 : ℕ) * 1.25 +
    s_perf ^ (2 : ℕ) * 1.2 + s_dur ^ (2 : ℕ) * 1.35 + s_stab ^ (2 : ℕ))
  let c_sus0 := sus_sl * 20.0 * e02 * fr_sus_cost * rr_sus_cost * e015 * car_price_rate
  let c_sus := 15.0 * e02 + c_sus0 + 1.0 + 0.04 * c_sus0 +
    15.0 * e015 * fr_sus_cost + 15.0 * e015 * rr_sus_cost
  let tech_sl := (s_tc ^ (2 : ℕ) * 1.15 + s_tm ^ (2 : ℕ) * 1.25 +
    s_tt ^ (2 : ℕ) * 1.25 + s_tq ^ (2 : ℕ) * 0.75)
  let c_tech0 := tech_sl * 30.0 * e015 * car_price_rate
  let c_tech := 15.0 * e015 + c_tech0 + 1.0 + 0.04 * c_tech0
  let mc0 := (c_frame + c_sus + c_tech) * car_price_rate
  let mc1 := mc0 + (mc0 - (mc0 / 10.0) * ((skill : ℝ) / 100.0))
  max mc1 0.0

/-- `calc_chassis_design_cost`. -/
noncomputable def calc_chassis_design_cost (sliders sub : SDict) (year : ℤ) : ℝ :=
  let s_h := _s sliders "FD_Height" 0.0
  let s_l := _s sliders "FD_Length" 0.0
  let s_wd := _s sliders "FD_Width" 0.0
  let s_w := _s sliders "FD_Weight" 0.0
  let s_el := _s sliders "FD_ENG_Length" 0.0
  let s_ew := _s sliders "FD_ENG_Width" 0.0
  let s_brk := _s sliders "SUS_Braking" 0.0
  let s_comf := _s sliders "SUS_Comfort" 0.0
  let s_perf := _s sliders "SUS_Performance" 0.0
  let s_dur := _s sliders "SUS_Durability" 0.0
  let s_stab := _s sliders "SUS_Stability" 0.0
  let s_tc := _s sliders "TECH_Compoenents" 0.0
  let s_tm := _s sliders "TECH_Materials" 0.0
  let s_tt := _s sliders "TECH_Tech" 0.0
  let s_tq := _s sliders "TECH_Techniques" 0.0
  let s_ctrl := _s sliders "DE_Control" 0.0
  let s_dep := _s sliders "DE_Depend" 0.0
  let s_dp := _s sliders "DE_Performance" 0.0
  let s_str := _s sliders "DE_Str" 0.0
  let s_pace := _s sliders "chassis_design_pace" 0.35
  let fr_design := _s sub "Frame_Design" 1.0
  let dr_design := _s sub "Drive_Design" 1.0
  let fr_sus_design := _s sub "FrSus_Design" 1.0
  let rr_sus_design := _s sub "RrSus_Design" 1.0
  let e028 := _yexp 1.028 year
  let e025 := _yexp 1.025 year
  let e032 := _yexp 1.032 year
  let fd_sl := (s_el ^ (2 : ℕ) + s_ew ^ (2 : ℕ) + s_h ^ (2 : ℕ) +
    s_l ^ (2 : ℕ) * 1.2 + s_wd ^ (2 : ℕ) * 0.8 +
    (1.0 - s_w ^ (2 : ℕ) * 0.8))
  let dc_frame := (fd_sl * 7000.0 * e028 + 5000.0) * fr_design * dr_design
  let sd_sl := (s_brk ^ (2 : ℕ) * 0.8 + s_comf ^ (2 : ℕ) * 1.2 +
    s_dur ^ (2 : ℕ) * 1.25 + s_perf ^ (2 : ℕ) * 1.15 + s_stab ^ (2 : ℕ) * 1.05)
  let dc_sus := (sd_sl * 9000.0 * e028 + 2500.0) * fr_sus_design * rr_sus_design
  let dd_sl := (s_ctrl ^ (2 : ℕ) * 10.0 + s_dep ^ (2 : ℕ) * 10.0 +
    s_dp ^ (2 : ℕ) * 10.0 + s_str ^ (2 : ℕ) * 10.0)
  let dc_design := (dd_sl * 14000.0 * e028 + 12000.0) *
    fr_design * dr_design * fr_sus_design * rr_sus_design
  let td_sl := s_tc ^ (2 : ℕ) + s_tm ^ (2 : ℕ) + s_tt ^ (2 : ℕ) + s_tq ^ (2 : ℕ)
  let dc_tech := td_sl * 9500.0 * e028 + 15000.0
  let hyper := ((s_ctrl + s_dep + s_dp + s_str +
    s_l + s_wd + s_h + (1.0 - s_w) + s_ew + s_el +
    s_stab + s_comf + s_perf + s_brk + s_dur +
    s_tm + s_tc + s_tq + s_tt) / 19.0)
  let hyper_sl := hyper * 100.0 * e025
  let dc0 := (dc_frame + dc_sus + dc_design + dc_tech + hyper_sl) * e032
  let dc1 := (dc0 / 5.0) + (dc0 * (s_pace ^ (2 : ℕ) * 4.5))
  max dc1 0.0

/-! ## B3. Gearbox formulas -/

/-- `calc_gearbox_torque_capacity` (lb-ft). -/
noncomputable def calc_gearbox_torque_capacity (sliders sub : SDict)
    (gears : ℤ) (year skill : ℤ) : ℝ :=
  let s_torq := _s sliders "TorqueInputRatio" (_s sliders "MaxTorqueInput"
    (_s sliders "torque_input" 0.5))
  let s_lo := _s sliders "LoRatio" 0.5
  let s_hi := _s sliders "HiRatio" 0.5
  let s_dep := _s sliders "de_depend" (_s sliders "depend" 0.3)
  let s_tc := _s sliders "Tech_Parts" (_s sliders "tech_parts" 0.3)
  let e0225 := _yexp 1.0225 year
  let mts0 := (10.0 * (gears : ℝ) + 75.0 * e0225 * s_torq +
    35.0 * e0225 * (1.0 - s_lo) +
    15.0 * e0225 * (1.0 - s_hi) +
    5.0 * e0225 * s_dep +
    5.0 * e0225 * s_tc + 5.0 * e0225 * s_tc)
  let mts1 := mts0 + (skill : ℝ) / 5.0
  max mts1 0.0

/-- `calc_gearbox_weight` (lbs). -/
noncomputable def calc_gearbox_weight (sliders sub : SDict) (gears : ℤ) : ℝ :=
  let s_torq := _s sliders "TorqueInputRatio" (_s sliders "MaxTorqueInput"
    (_s sliders "torque_input" 0.5))
  let s_dp := _s sliders "de_performance" (_s sliders "performance" 0.3)
  let s_tm := _s sliders "Tech_Material" (_s sliders "tech_material" 0.3)
  let gb_complex := _s sub "GB_Complexity" 0.5
  let gb_wt := _s sub "GB_Weight" 0.5
  let has_reverse := _s sub "Reverse" 1.0
  let has_od := _s sub "Overdrive" 0.0
  let has_ls := _s sub "Limited" 0.0
  let has_ta := _s sub "Transaxle" 0.0
  let w0 := (20.0 + 15.0 * ((gears : ℝ) + has_reverse) +
    25.0 * gb_complex + 15.0 * has_od +
    15.0 * has_ls + 50.0 * s_torq -
    50.0 * s_dp + 140.0 * gb_wt +
    30.0 * (1.0 - s_tm)) - 20.0 * has_ta
  max w0 5.0

/-- `calc_gearbox_power_rating`. -/
noncomputable def calc_gearbox_power_rating (torque_capacity : ℝ) (year : ℤ) : ℝ :=
  let e0225 := _yexp 1.0225 year
  let denom := 80.0 + 150.0 * e0225 + 90.0 * e0225
  if denom ≤ 0 then 0.0
  else _clamp (100.0 * (torque_capacity / denom)) 0.0 100.0

/-- `calc_gearbox_fuel_rating`. -/
noncomputable def calc_gearbox_fuel_rating (sliders sub : SDict)
    (gears : ℤ) (year skill : ℤ) : ℝ :=
  let s_dfe := _s sliders "de_fuel" (_s sliders "fuel" 0.3)
  let s_lo := _s sliders "LoRatio" 0.5
  let s_hi := _s sliders "HiRatio" 0.5
  let s_dp := _s sliders "de_performance" (_s sliders "performance" 0.3)
  let s_tc := _s sliders "Tech_Parts" (_s sliders "tech_parts" 0.3)
  let s_tm := _s sliders "Tech_Material" (_s sliders "tech_material" 0.3)
  let s_tt := _s sliders "Tech_Tech" (_s sliders "tech_tech" 0.3)
  let gb_fuel := _s sub "GB_Fuel" 0.5
  let has_od := _s sub "Overdrive" 0.0
  let r0 := (15.0 * s_dfe + 15.0 * gb_fuel +
    13.0 * s_lo + 10.0 * s_hi +
    5.0 * (1.0 - s_dp) + 6.0 * has_od +
    2.0 * (gears : ℝ) + 5.0 * s_tc +
    6.0 * s_tm + 6.0 * s_tt)
  let r1 := r0 + (skill : ℝ) / 10.0
  _clamp r1 0.0 100.0

/-- `calc_gearbox_performance_rating`. -/
noncomputable def calc_gearbox_performance_rating (sliders sub : SDict)
    (gears : ℤ) (year skill : ℤ) : ℝ :=
  let s_dp := _s sliders "de_performance" (_s sliders "performance" 0.3)
  let s_lo := _s sliders "LoRatio" 0.5
  let s_hi := _s sliders "HiRatio" 0.5
  let s_tc := _s sliders "Tech_Parts" (_s sliders "tech_parts" 0.3)
  let s_tm := _s sliders "Tech_Material" (_s sliders "tech_material" 0.3)
  let s_tt := _s sliders "Tech_Tech" (_s sliders "tech_tech" 0.3)
  let s_tq := _s sliders "Tech_Techniques" (_s sliders "tech_techniques" 0.3)
  let gb_perf := _s sub "GB_Performance" 0.5
  let has_ls := _s sub "Limited" 0.0
  let has_ta := _s sub "Transaxle" 0.0
  let r0 := (10.0 * s_dp + 13.0 * gb_perf + 2.0 * (gears : ℝ) +
    7.0 * s_tt + 6.0 * s_tm + 7.0 * s_tc + 6.0 * s_tq +
    15.0 * (1.0 - s_lo) + 10.0 * s_hi +
    4.0 * has_ls + 2.0 * has_ta)
  let r1 := r0 + (skill : ℝ) / 10.0
  _clamp r1 0.0 100.0

/-- `calc_gearbox_reliability_rating`. -/
noncomputable def calc_gearbox_reliability_rating (sliders sub : SDict)
    (gears : ℤ) (year skill : ℤ) : ℝ :=
  let s_torq := _s sliders "TorqueInputRatio" (_s sliders "MaxTorqueInput"
    (_s sliders "torque_input" 0.5))
  let s_dep := _s sliders "de_depend" (_s sliders "depend" 0.3)
  let s_ease := _s sliders "de_comfort" (_s sliders "comfort" 0.3)
  let s_tc := _s sliders "Tech_Parts" (_s sliders "tech_parts" 0.3)
  let s_tm := _s sliders "Tech_Material" (_s sliders "tech_material" 0.3)
  let s_tt := _s sliders "Tech_Tech" (_s sliders "tech_tech" 0.3)
  let gb_complex := _s sub "GB_Complexity" 0.5
  let has_reverse := _s sub "Reverse" 1.0
  let has_ls := _s sub "Limited" 0.0
  let has_od := _s sub "Overdrive" 0.0
  let has_ta := _s sub "Transaxle" 0.0
  let r0 := (20.0 * |1.0 - gb_complex| +
    15.0 * s_torq - ((gears : ℝ) + has_reverse) +
    10.0 * s_tm + 10.0 * s_tc +
    10.0 * s_dep + 5.0 * (1.0 - gb_complex) +
    5.0 * (1.0 - s_ease) + 5.0 * |has_ls - 1.0| +
    5.0 * |has_od - 1.0| + 5.0 * |has_ta - 1.0| +
    10.0 * (1.0 - s_tt))
  let r1 := r0 + (skill : ℝ) / 10.0
  _clamp r1 0.0 100.0

/-- `calc_gearbox_comfort_rating`. -/
noncomputable def calc_gearbox_comfort_rating (sliders sub : SDict) (skill : ℤ) : ℝ :=
  let s_ease := _s sliders "de_comfort" (_s sliders "comfort" 0.3)
  let has_ls := _s sub "Limited" 0.0
  let has_reverse := _s sub "Reverse" 1.0
  let gb_ease := _s sub "GB_Comfort_Sub" (_s sub "GB_Comfort" 0.5)
  let gb_smooth := _s sub "GB_Smoothness" 0.5
  let r0 := (10.0 * has_ls + 10.0 * has_reverse +
    40.0 * s_ease + 20.0 * gb_ease + 20.0 * gb_smooth)
  let r1 := r0 + (skill : ℝ) / 10.0
  _clamp r1 0.0 100.0

/-- `calc_gearbox_unit_cost`. -/
noncomputable def calc_gearbox_unit_cost (sliders sub : SDict)
    (gears : ℤ) (year skill : ℤ) (interest_rate car_price_rate : ℝ) : ℝ :=
  let s_dp := _s sliders "de_performance" (_s sliders "performance" 0.3)
  let s_dfe := _s sliders "de_fuel" (_s sliders "fuel" 0.3)
  let s_dep := _s sliders "de_depend" (_s sliders "depend" 0.3)
  let s_ease := _s sliders "de_comfort" (_s sliders "comfort" 0.3)
  let s_torq := _s sliders "TorqueInputRatio" (_s sliders "MaxTorqueInput"
    (_s sliders "torque_input" 0.5))
  let s_tc := _s sliders "Tech_Parts" (_s sliders "tech_parts" 0.3)
  let s_tm := _s sliders "Tech_Material" (_s sliders "tech_material" 0.3)
  let s_tt := _s sliders "Tech_Tech" (_s sliders "tech_tech" 0.3)
  let s_tq := _s sliders "Tech_Techniques" (_s sliders "tech_techniques" 0.3)
  let gb_complex := _s sub "GB_Complexity" 0.5
  let gb_uc := _s sub "GB_Costs" 1.0
  let has_reverse := _s sub "Reverse" 1.0
  let has_od := _s sub "Overdrive" 0.0
  let has_ls := _s sub "Limited" 0.0
  let has_ta := _s sub "Transaxle" 0.0
  let e01 := _yexp 1.01 year
  let e02 := _yexp 1.02 year
  let e008 := _yexp 1.008 year
  let e015 := _yexp 1.015 year
  let e04 := _yexp 1.04 year
  let uc0 := (20.0 * e01 + 40.0 * e02 * ((gears : ℝ) + has_reverse) +
    60.0 * e008 * gb_complex +
    15.0 * e008 * has_od + 65.0 * e008 * has_ta +
    55.0 * e008 * has_ls +
    20.0 * e02 * s_dp ^ (2 : ℕ) + 25.0 * e02 * s_dfe ^ (2 : ℕ) +
    20.0 * e02 * s_ease ^ (2 : ℕ) + 45.0 * e02 * s_dep ^ (2 : ℕ) +
    80.0 * e02 * gb_uc +
    30.0 * e015 * s_torq ^ (2 : ℕ) +
    40.0 * e02 * (0.5 + s_tt ^ (2 : ℕ)) +
    55.0 * e015 * (s_tm ^ (2 : ℕ) + s_tc ^ (2 : ℕ) + s_tq ^ (2 : ℕ)) * e01)
  let uc1 := uc0 * (interest_rate / 2.1) * car_price_rate
  let hyper := ((s_tm + s_tc + s_tq + s_tt +
    s_torq ^ (2 : ℕ) +
    s_dp + s_dfe + s_dep + s_ease) / 9.0)
  let hyper_cost := 500.0 * e04 * (hyper ^ (4 : ℕ))
  let uc2 := uc1 + hyper_cost - (uc1 / 10.0) * ((skill : ℝ) / 100.0)
  max uc2 0.0

/-- `calc_gearbox_design_cost`. -/
noncomputable def calc_gearbox_design_cost (sliders sub : SDict)
    (gears : ℤ) (year : ℤ) : ℝ :=
  let s_dp := _s sliders "de_performance" (_s sliders "performance" 0.3)
  let s_dfe := _s sliders "de_fuel" (_s sliders "fuel" 0.3)
  let s_dep := _s sliders "de_depend" (_s sliders "depend" 0.3)
  let s_ease := _s sliders "de_comfort" (_s sliders "comfort" 0.3)
  let s_torq := _s sliders "TorqueInputRatio" (_s sliders "MaxTorqueInput"
    (_s sliders "torque_input" 0.5))
  let s_tm := _s sliders "Tech_Material" (_s sliders "tech_material" 0.3)
  let s_tt := _s sliders "Tech_Tech" (_s sliders "tech_tech" 0.3)
  let s_tq := _s sliders "Tech_Techniques" (_s sliders "tech_techniques" 0.3)
  let s_pace := _s sliders "gearbox_design_pace" (_s sliders "design_pace" 0.35)
  let gb_complex := _s sub "GB_Complexity" 0.5
  let has_reverse := _s sub "Reverse" 1.0
  let has_od := _s sub "Overdrive" 0.0
  let has_ls := _s sub "Limited" 0.0
  let has_ta := _s sub "Transaxle" 0.0
  let e017 := _yexp 1.017 year
  let e014 := _yexp 1.014 year
  let e019 := _yexp 1.019 year
  let e027 := _yexp 1.027 year
  let e04 := _yexp 1.04 year
  let hyper := ((_s sliders "Tech_Material" 0.3 + _s sliders "Tech_Parts" 0.3 +
    _s sliders "Tech_Techniques" 0.3 + _s sliders "Tech_Tech" 0.3 +
    s_torq ^ (2 : ℕ) + s_dp + s_dfe + s_dep + s_ease) / 9.0)
  let hyper_cost := 500.0 * e04 * (hyper ^ (4 : ℕ))
  let dc0 := (6000.0 * e017 + 250.0 * e017 * ((gears : ℝ) + has_reverse) +
    5000.0 * e017 * gb_complex +
    hyper_cost * 100.0 * e027 +
    2000.0 * e014 * s_torq ^ (2 : ℕ) +
    2000.0 * e014 * has_ta + 2000.0 * e017 * has_od +
    2500.0 * e019 * has_ls +
    2500.0 * e014 * (0.5 + s_tt ^ (2 : ℕ)) +
    2500.0 * e014 * s_dp ^ (2 : ℕ) +
    3500.0 * e014 * s_dfe ^ (2 : ℕ) +
    4000.0 * e014 * s_ease ^ (2 : ℕ) +
    8000.0 * e014 * s_dep ^ (2 : ℕ) +
    2200.0 * e014 * s_tq ^ (2 : ℕ) +
    2200.0 * e014 * s_tm ^ (2 : ℕ))
  let dc1 := dc0 * e014 * (gears : ℝ)
  let dc2 := (dc1 / 5.0) + (dc1 * (s_pace ^ (2 : ℕ) * 4.5))
  max dc2 0.0

/-! ## B4. Vehicle formulas -/

/-- `calc_vehicle_performance_rating`. -/
noncomputable def calc_vehicle_performance_rating
    (engine_r chassis_r gearbox_r v_sliders specs : SDict) : ℝ :=
  let hp := _s specs "hp" 10
  let weight := _s specs "weight_kg" 1000
  let accel_kph := _s specs "accel_kph" 30
  let top_speed := _s specs "top_speed" 50
  let brake := _s specs "braking" 300
  let lateral_g := _s specs "lateral_g" 1.0
  let chassis_perf := _s chassis_r "performance_rating" 30
  let gearbox_perf := _s gearbox_r "performance_rating" 30
  let s_test_perf := _s v_sliders "Scroll_TestPerform" 0.3
  let weight_tons := max (weight * 2.205 / 2000.0) 0.01
  let pwr := _clamp (-0.024 + 0.003 * (hp / weight_tons)) 0.01 1.0
  let temp_accel := min (max accel_kph 0.5) 60.0
  let temp_brake := max brake 1.0
  let r0 := (10.0 * (chassis_perf / 100.0) +
    45.0 * pwr +
    15.0 * s_test_perf +
    5.0 * lateral_g +
    5.0 * (top_speed / 321.0) +
    5.0 * (gearbox_perf / 100.0) +
    5.0 * (50.0 / temp_brake) +
    10.0 * ((60.0 - temp_accel) / 60.0))
  _clamp r0 0.0 100.0

/-- `calc_vehicle_luxury_rating`. -/
noncomputable def calc_vehicle_luxury_rating
    (engine_r chassis_r gearbox_r v_sliders specs : SDict) (skill : ℤ) : ℝ :=
  let s_dl := _s v_sliders "Scroll_DesignLux" 0.3
  let s_ds := _s v_sliders "Scroll_DesignStyle" 0.3
  let s_ic := _s v_sliders "Scroll_InteriorComf" 0.3
  let s_ii := _s v_sliders "Scroll_InteriorInno" 0.3
  let s_il := _s v_sliders "Scroll_InteriorLux" 0.3
  let s_is := _s v_sliders "Scroll_InteriorStyle" 0.3
  let s_it := _s v_sliders "Scroll_InteriorTech" 0.3
  let s_mi := _s v_sliders "Scroll_MatMatInterQual" 0.3
  let s_tc := _s v_sliders "Scroll_TestComf" 0.3
  let s_tu := _s v_sliders "Scroll_TestUtil" 0.3
  let chassis_comf := _s chassis_r "comfort_rating" 50
  let gearbox_comf := _s gearbox_r "comfort_rating" 50
  let engine_smooth := _s engine_r "smoothness_rating" 50
  let cargo_r := _s specs "cargo_rating" 30
  let r0 := (7.0 * s_dl + 7.0 * s_ds +
    4.0 * s_ic + 4.0 * s_ii +
    8.0 * s_il + 4.0 * s_is +
    3.0 * s_it + 5.0 * s_mi +
    5.0 * s_tc + 3.0 * s_tu +
    15.0 * (chassis_comf / 100.0) +
    8.0 * (gearbox_comf / 100.0) +
    10.0 * (engine_smooth / 100.0) +
    5.0 * (cargo_r / 100.0) +
    7.0 * ((skill : ℝ) / 100.0))
  _clamp r0 0.0 100.0

/-- `calc_vehicle_safety_rating`. -/
noncomputable def calc_vehicle_safety_rating
    (chassis_r v_sliders specs : SDict) (skill : ℤ) : ℝ :=
  let s_dsafety := _s v_sliders "Scroll_DesignSafety" 0.3
  let s_isafe := _s v_sliders "Scroll_InteriorSafe" 0.3
  let s_it := _s v_sliders "Scroll_InteriorTech" 0.3
  let s_mt := _s v_sliders "Scroll_MatManuTech" 0.3
  let s_mi := _s v_sliders "Scroll_MatMatInterQual" 0.3
  let s_mq := _s v_sliders "Scroll_MatMatQual" 0.3
  let s_tr := _s v_sliders "Scroll_TestReli" 0.3
  let weight := _s specs "weight_kg" 1000
  let brake := max (_s specs "braking" 300) 1.0
  let chassis_str := _s chassis_r "strength_rating" 50
  let r0 := (10.0 * s_dsafety + 10.0 * s_isafe +
    2.0 * s_it + 2.0 * s_mt + 2.0 * s_mi +
    2.0 * s_mq + 2.0 * s_tr +
    20.0 * (weight / 4000.0) +
    15.0 * ((skill : ℝ) / 100.0) +
    5.0 * (50.0 / brake) +
    15.0 * (chassis_str / 100.0))
  _clamp r0 0.0 100.0

/-- `calc_vehicle_fuel_rating` (clamped to [1, 100]). -/
noncomputable def calc_vehicle_fuel_rating (fuel_mileage : ℝ) : ℝ :=
  _clamp (fuel_mileage * 2.0) 1.0 100.0

/-- `calc_vehicle_cargo_rating`. -/
noncomputable def calc_vehicle_cargo_rating (v_sliders specs : SDict) : ℝ :=
  let cargo_vol := _s specs "cargo_volume" 500
  let s_dc := _s v_sliders "Scroll_DesignCargo" 0.3
  let s_tu := _s v_sliders "Scroll_TestUtil" 0.3
  let r0 := 85.0 * (cargo_vol / 3200.0)
  let r1 := if r0 > 85.0 then 85.0 else r0
  let r2 := r1 + 10.0 * s_dc + 5.0 * s_tu
  _clamp r2 0.0 100.0

/-- `calc_vehicle_quality_rating`. -/
noncomputable def calc_vehicle_quality_rating
    (engine_r chassis_r gearbox_r v_sliders : SDict) (skill : ℤ)
    (torque_compatible : Bool) (torque_ratio : ℝ) : ℝ :=
  let s_dd := _s v_sliders "Scroll_DesignDepend" 0.3
  let s_dl := _s v_sliders "Scroll_DesignLux" 0.3
  let s_ds := _s v_sliders "Scroll_DesignStyle" 0.3
  let s_mt := _s v_sliders "Scroll_MatManuTech" 0.3
  let s_mi := _s v_sliders "Scroll_MatMatInterQual" 0.3
  let s_mp := _s v_sliders "Scroll_MatPaintQual" 0.3
  let s_tr := _s v_sliders "Scroll_TestReli" 0.3
  let s_tu := _s v_sliders "Scroll_TestUtil" 0.3
  let gb_rel := _s gearbox_r "reliability_rating" 50
  let ch_dur := _s chassis_r "dependability_rating" 50
  let eng_rel := _s engine_r "reliability_rating" 50
  let r0 := (10.0 * s_dd + 5.0 * s_dl + 5.0 * s_ds +
    5.0 * s_mt + 15.0 * s_mi + 10.0 * s_mp +
    10.0 * s_tr + 5.0 * s_tu +
    5.0 * (gb_rel / 100.0) +
    5.0 * (ch_dur / 100.0) +
    5.0 * (eng_rel / 100.0) +
    20.0 * ((skill : ℝ) / 100.0))
  let r1 := _clamp r0 0.0 100.0
  let r2 := if torque_compatible = false ∧ torque_ratio < 1.0 then
    r1 * 0.7 + r1 * 0.25 * torque_ratio else r1
  _clamp r2 0.0 100.0

/-- `calc_vehicle_dependability_rating`. -/
noncomputable def calc_vehicle_dependability_rating
    (engine_r chassis_r gearbox_r v_sliders : SDict)
    (torque_compatible : Bool) (torque_ratio : ℝ) : ℝ :=
  let s_dd := _s v_sliders "Scroll_DesignDepend" 0.3
  let s_mq := _s v_sliders "Scroll_MatMatQual" 0.3
  let s_tr := _s v_sliders "Scroll_TestReli" 0.3
  let s_tu := _s v_sliders "Scroll_TestUtil" 0.3
  let gb_rel := _s gearbox_r "reliability_rating" 50
  let ch_dur := _s chassis_r "dependability_rating" 50
  let ch_str := _s chassis_r "strength_rating" 50
  let eng_rel := _s engine_r "reliability_rating" 50
  let eng_smooth := _s engine_r "smoothness_rating" 50
  let r0 := (20.0 * s_dd + 5.0 * s_mq +
    15.0 * s_tr + 5.0 * s_tu +
    15.0 * (ch_dur / 100.0) + 5.0 * (ch_str / 100.0) +
    10.0 * (gb_rel / 100.0) +
    20.0 * (eng_rel / 100.0) +
    5.0 * (eng_smooth / 100.0))
  let r1 := _clamp r0 0.0 100.0
  let r2 := if torque_compatible = false ∧ torque_ratio < 1.0 then
    r1 * torque_ratio * 0.95 else r1
  _clamp r2 0.0 100.0

/-- `calc_vehicle_unit_cost`. -/
noncomputable def calc_vehicle_unit_cost (v_sliders : SDict) (year skill : ℤ)
    (engine_uc chassis_uc gearbox_uc : ℝ) (wealth_index : ℤ)
    (interest_rate car_price_rate : ℝ) : ℝ :=
  let s_ic := _s v_sliders "Scroll_InteriorComf" 0.3
  let s_il := _s v_sliders "Scroll_InteriorLux" 0.3
  let s_is := _s v_sliders "Scroll_InteriorSafe" 0.3
  let s_it := _s v_sliders "Scroll_InteriorTech" 0.3
  let s_ii := _s v_sliders "Scroll_InteriorInno" 0.3
  let s_ist := _s v_sliders "Scroll_InteriorStyle" 0.3
  let s_dc := _s v_sliders "Scroll_DesignCargo" 0.3
  let s_dd := _s v_sliders "Scroll_DesignDepend" 0.3
  let s_dsf := _s v_sliders "Scroll_DesignSafety" 0.3
  let s_dst := _s v_sliders "Scroll_DesignStyle" 0.3
  let s_dl := _s v_sliders "Scroll_DesignLux" 0.3
  let s_mq := _s v_sliders "Scroll_MatMatQual" 0.3
  let s_mt := _s v_sliders "Scroll_MatManuTech" 0.3
  let s_mi := _s v_sliders "Scroll_MatMatInterQual" 0.3
  let s_mp := _s v_sliders "Scroll_MatPaintQual" 0.3
  let s_td := _s v_sliders "Scroll_TestDemo" 0.1
  let s_tp := _s v_sliders "Scroll_TestPerform" 0.3
  let s_tf := _s v_sliders "Scroll_TestFuel" 0.3
  let s_tc := _s v_sliders "Scroll_TestComf" 0.3
  let s_tu := _s v_sliders "Scroll_TestUtil" 0.3
  let s_tr := _s v_sliders "Scroll_TestReli" 0.3
  let demo_wealth := _s v_sliders "DemoIncome" 3
  let e02 := _yexp 1.02 year
  let e04 := _yexp 1.04 year
  let interior_sq := ((s_ic ^ (2 : ℕ) + s_il ^ (2 : ℕ) + s_is ^ (2 : ℕ) +
    s_it ^ (2 : ℕ) + (s_ii ^ (2 : ℕ) + s_ist ^ (2 : ℕ)) / 2.5) / 3.5)
  let design_sq := (s_dc ^ (2 : ℕ) + s_dd ^ (2 : ℕ) + s_dsf ^ (2 : ℕ) +
    s_dst ^ (2 : ℕ) + s_dl ^ (2 : ℕ)) / 4.0
  let test_sq := (s_td ^ (2 : ℕ) + s_tp ^ (2 : ℕ) + s_tf ^ (2 : ℕ) +
    s_tc ^ (2 : ℕ) + s_tu ^ (2 : ℕ) + s_tr ^ (2 : ℕ)) / 7.0
  let mat_sq := (s_mq ^ (2 : ℕ) + s_mt ^ (2 : ℕ) + s_mi ^ (2 : ℕ) +
    s_mp ^ (2 : ℕ)) / 1.5
  let uc0 := 200.0 * e02 * (interior_sq + design_sq + test_sq + mat_sq)
  let uc1 := uc0 * ((wealth_index : ℝ) / 3.0) * (interest_rate / 2.1) * car_price_rate
  let uc2 := uc1 + 130.0 * e02 * (demo_wealth / 5.0)
  let uc3 := uc2 + 150.0 * e02 * (demo_wealth / 10.0) * s_td
  let hyper := ((s_ist + s_ii + s_il + s_ic + s_is + s_it +
    s_mq + s_mi + s_mp + s_mt +
    s_dst + s_dl + s_dsf + s_dc + s_dd +
    s_td + s_tp + s_tf + s_tc + s_tu + s_tr) / 21.0)
  let hyper_cost := 450.0 * e04 * (hyper ^ (4 : ℕ))
  let total0 := chassis_uc + engine_uc + gearbox_uc + uc3 + hyper_cost
  let total1 := total0 - (uc3 / 10.0) * ((skill : ℝ) / 100.0)
  max total1 0.0

/-- `calc_vehicle_design_cost`. -/
noncomputable def calc_vehicle_design_cost (v_sliders : SDict) (year : ℤ)
    (engine_uc chassis_uc gearbox_uc : ℝ) : ℝ :=
  let s_dc := _s v_sliders "Scroll_DesignCargo" 0.3
  let s_dd := _s v_sliders "Scroll_DesignDepend" 0.3
  let s_dl := _s v_sliders "Scroll_DesignLux" 0.3
  let s_dsf := _s v_sliders "Scroll_DesignSafety" 0.3
  let s_dst := _s v_sliders "Scroll_DesignStyle" 0.3
  let s_ii := _s v_sliders "Scroll_InteriorInno" 0.3
  let s_is := _s v_sliders "Scroll_InteriorSafe" 0.3
  let s_ist := _s v_sliders "Scroll_InteriorStyle" 0.3
  let s_tc := _s v_sliders "Scroll_TestComf" 0.3
  let s_td := _s v_sliders "Scroll_TestDemo" 0.1
  let s_tf := _s v_sliders "Scroll_TestFuel" 0.3
  let s_tp := _s v_sliders "Scroll_TestPerform" 0.3
  let s_tr := _s v_sliders "Scroll_TestReli" 0.3
  let s_tu := _s v_sliders "Scroll_TestUtil" 0.3
  let s_pace := _s v_sliders "car_design_pace" (_s v_sliders "SlidersDesignPace" 0.35)
  let demo_wealth := _s v_sliders "DemoIncome" 3
  let e03 := _yexp 1.03 year
  let e05 := _yexp 1.05 year
  let e04 := _yexp 1.04 year
  let hyper := ((_s v_sliders "Scroll_InteriorStyle" 0.3 +
    _s v_sliders "Scroll_InteriorInno" 0.3 +
    _s v_sliders "Scroll_InteriorLux" 0.3 +
    _s v_sliders "Scroll_InteriorComf" 0.3 +
    _s v_sliders "Scroll_InteriorSafe" 0.3 +
    _s v_sliders "Scroll_InteriorTech" 0.3 +
    _s v_sliders "Scroll_MatMatQual" 0.3 +
    _s v_sliders "Scroll_MatMatInterQual" 0.3 +
    _s v_sliders "Scroll_MatPaintQual" 0.3 +
    _s v_sliders "Scroll_MatManuTech" 0.3 +
    s_dst + s_dl + s_dsf + s_dc + s_dd +
    s_td + s_tp + s_tf + s_tc + s_tu + s_tr) / 21.0)
  let hyper_cost := 450.0 * e04 * (hyper ^ (4 : ℕ))
  let dc0 := (hyper_cost * 400.0 * e03 +
    chassis_uc * 400.0 * e03 +
    engine_uc * 400.0 * e03 +
    gearbox_uc * 400.0 * e03 +
    20000.0 * e05 * (s_dc ^ (2 : ℕ) + s_dd ^ (2 : ℕ) + s_dl ^ (2 : ℕ) +
      s_dsf ^ (2 : ℕ) + s_dst ^ (2 : ℕ) +
      s_ii ^ (2 : ℕ) + s_is ^ (2 : ℕ) + s_ist ^ (2 : ℕ) +
      s_tc ^ (2 : ℕ) * 2.0 + s_td ^ (2 : ℕ) * 2.0 +
      s_tf ^ (2 : ℕ) * 2.0 + s_tp ^ (2 : ℕ) * 2.0 +
      s_tr ^ (2 : ℕ) * 2.0 + s_tu ^ (2 : ℕ) * 2.0) +
    40000.0 * e03 * (demo_wealth / 10.0) * s_td)
  let dc1 := (dc0 / 5.0) + (dc0 / 1.25) * (s_pace ^ (2 : ℕ) * 4.5)
  max dc1 0.0

end DesignFormulas

namespace DesignFormulas

/-! ## Helper lemmas -/

theorem pyRound_of_lt_half {x : ℝ} {n : ℤ} (h1 : (n : ℝ) ≤ x) (h2 : x < (n : ℝ) + 1/2) :
    pyRound x = n := by
  have hf : ⌊x⌋ = n := Int.floor_eq_iff.mpr ⟨h1, by linarith⟩
  unfold pyRound
  rw [hf, if_pos (by linarith)]

theorem pyRound_of_half_lt {x : ℝ} {n : ℤ} (h1 : (n : ℝ) + 1/2 < x) (h2 : x < (n : ℝ) + 1) :
    pyRound x = n + 1 := by
  have hf : ⌊x⌋ = n := Int.floor_eq_iff.mpr ⟨by linarith, by linarith⟩
  unfold pyRound
  rw [hf, if_neg (by linarith), if_pos (by linarith)]

theorem floor_le_pyRound (x : ℝ) : ⌊x⌋ ≤ pyRound x := by
  unfold pyRound
  split_ifs <;> omega

theorem le_pyRound_of_le {x : ℝ} {n : ℤ} (h : (n : ℝ) ≤ x) : n ≤ pyRound x :=
  le_trans (Int.le_floor.mpr h) (floor_le_pyRound x)

theorem pyRound1_eq_div {x : ℝ} {n : ℤ} (h1 : (n : ℝ) ≤ x * 10) (h2 : x * 10 < (n : ℝ) + 1/2) :
    pyRound1 x = (n : ℝ) / 10 := by
  unfold pyRound1
  rw [pyRound_of_lt_half h1 h2]

theorem pyRound3_eq_div {x : ℝ} {n : ℤ} (h1 : (n : ℝ) ≤ x * 1000) (h2 : x * 1000 < (n : ℝ) + 1/2) :
    pyRound3 x = (n : ℝ) / 1000 := by
  unfold pyRound3
  rw [pyRound_of_lt_half h1 h2]

theorem clamp_bounds (value lo hi : ℝ) (h : lo ≤ hi) :
    lo ≤ _clamp value lo hi ∧ _clamp value lo hi ≤ hi :=
  ⟨le_max_left _ _, max_le h (min_le_left _ _)⟩

theorem clamp01_bounds (value : ℝ) :
    0 ≤ _clamp value 0.0 100.0 ∧ _clamp value 0.0 100.0 ≤ 100 := by
  have h := clamp_bounds value 0.0 100.0 (by norm_num)
  exact ⟨by linarith [h.1], by linarith [h.2]⟩

theorem clamp1_bounds (value : ℝ) :
    1 ≤ _clamp value 1.0 100.0 ∧ _clamp value 1.0 100.0 ≤ 100 := by
  have h := clamp_bounds value 1.0 100.0 (by norm_num)
  exact ⟨by linarith [h.1], by linarith [h.2]⟩

theorem staleness_buyer_divisor_pos (c : ℝ) : 0 < staleness_buyer_divisor c := by
  unfold staleness_buyer_divisor
  split_ifs with h
  · exact Real.rpow_pos_of_pos (by linarith) _
  · norm_num

theorem two_rpow_bounds : (2.297 : ℝ) < (2 : ℝ) ^ (1.2 : ℝ) ∧ (2 : ℝ) ^ (1.2 : ℝ) < 2.2975 := by
  have h0 : (0 : ℝ) ≤ 2 := by norm_num
  have hxpos : 0 < (2 : ℝ) ^ (1.2 : ℝ) := Real.rpow_pos_of_pos (by norm_num) _
  have hx : ((2 : ℝ) ^ (1.2 : ℝ)) ^ (5 : ℕ) = 64 := by
    rw [← Real.rpow_natCast ((2 : ℝ) ^ (1.2 : ℝ)) 5, ← Real.rpow_mul h0]
    norm_num
  constructor
  · exact lt_of_pow_lt_pow_left₀ 5 (le_of_lt hxpos) (by rw [hx]; norm_num)
  · exact lt_of_pow_lt_pow_left₀ 5 (by norm_num) (by rw [hx]; norm_num)

/-! ## Claim theorems -/

/-- C1: the component staleness penalty is 0 for age ≤ 12, (age−12)·0.05 for
12 < age ≤ 15, and (age−12)·0.05 + (age−15)·0.25 for age > 15; the vehicle
staleness penalty is 0 while age+4 ≤ 9 and ((age+4)/10)^1.6 otherwise; in
`calc_staleness` with engine age 10, chassis age 20, gearbox age 8 and
vehicle age 3, only the chassis penalty 1.65 is nonzero and the collective
factor is 2.65. -/
theorem staleness_penalty_spec :
    (∀ age : ℤ, age ≤ 12 → _component_staleness age = 0) ∧
    (∀ age : ℤ, 12 < age → age ≤ 15 → _component_staleness age = ((age : ℝ) - 12) * 0.05) ∧
    (∀ age : ℤ, 15 < age →
      _component_staleness age = ((age : ℝ) - 12) * 0.05 + ((age : ℝ) - 15) * 0.25) ∧
    (∀ age : ℤ, age + 4 ≤ 9 → _vehicle_staleness age = 0) ∧
    (∀ age : ℤ, 9 < age + 4 →
      _vehicle_staleness age = (((age : ℝ) + 4) / 10) ^ (1.6 : ℝ)) ∧
    (calc_staleness 2020 2017 2010 2000 2012).engine_penalty = 0 ∧
    (calc_staleness 2020 2017 2010 2000 2012).gearbox_penalty = 0 ∧
    (calc_staleness 2020 2017 2010 2000 2012).vehicle_penalty = 0 ∧
    (calc_staleness 2020 2017 2010 2000 2012).chassis_penalty = 1.65 ∧
    (calc_staleness 2020 2017 2010 2000 2012).collective_age = 2.65 := by
  have hcomp0 : ∀ age : ℤ, age ≤ 12 → _component_staleness age = 0 := by
    intro age h
    unfold _component_staleness COMPONENT_SAFE_AGE COMPONENT_STEEP_AGE
    rw [if_neg (by omega), if_neg (by omega)]
    norm_num
  have hveh0 : ∀ age : ℤ, age + 4 ≤ 9 → _vehicle_staleness age = 0 := by
    intro age h
    unfold _vehicle_staleness VEHICLE_AGE_OFFSET VEHICLE_STALENESS_TRIGGER
    rw [if_pos (by omega)]
  have hcomp20 : _component_staleness 20 = 1.65 := by
    unfold _component_staleness COMPONENT_SAFE_AGE COMPONENT_STEEP_AGE
      COMPONENT_PENALTY_RATE COMPONENT_STEEP_RATE
    rw [if_pos (by omega), if_pos (by omega)]
    norm_num
  refine ⟨hcomp0, ?_, ?_, hveh0, ?_, ?_, ?_, ?_, ?_, ?_⟩
  · intro age h1 h2
    unfold _component_staleness COMPONENT_SAFE_AGE COMPONENT_STEEP_AGE COMPONENT_PENALTY_RATE
    rw [if_pos (by omega), if_neg (by omega)]
    push_cast
    ring
  · intro age h
    unfold _component_staleness COMPONENT_SAFE_AGE COMPONENT_STEEP_AGE
      COMPONENT_PENALTY_RATE COMPONENT_STEEP_RATE
    rw [if_pos (by omega), if_pos (by omega)]
    push_cast
    ring
  · intro age h
    unfold _vehicle_staleness VEHICLE_AGE_OFFSET VEHICLE_STALENESS_TRIGGER
      VEHICLE_STALENESS_DIVISOR VEHICLE_STALENESS_EXPONENT
    rw [if_neg (by omega)]
    push_cast
    ring_nf
  · simp only [calc_staleness]
    rw [show (2020 - 2010 : ℤ) = 10 by norm_num, hcomp0 10 (by norm_num)]
    rw [pyRound3_eq_div (n := 0) (by norm_num) (by norm_num)]
    norm_num
  · simp only [calc_staleness]
    rw [show (2020 - 2012 : ℤ) = 8 by norm_num, hcomp0 8 (by norm_num)]
    rw [pyRound3_eq_div (n := 0) (by norm_num) (by norm_num)]
    norm_num
  · simp only [calc_staleness]
    rw [show (2020 - 2017 : ℤ) = 3 by norm_num, hveh0 3 (by norm_num)]
    rw [pyRound3_eq_div (n := 0) (by norm_num) (by norm_num)]
    norm_num
  · simp only [calc_staleness]
    rw [show (2020 - 2000 : ℤ) = 20 by norm_num, hcomp20]
    rw [pyRound3_eq_div (n := 1650) (by norm_num) (by norm_num)]
    norm_num
  · simp only [calc_staleness]
    rw [show (2020 - 2017 : ℤ) = 3 by norm_num, show (2020 - 2010 : ℤ) = 10 by norm_num,
      show (2020 - 2000 : ℤ) = 20 by norm_num, show (2020 - 2012 : ℤ) = 8 by norm_num,
      hveh0 3 (by norm_num), hcomp0 10 (by norm_num), hcomp0 8 (by norm_num), hcomp20]
    rw [show (1.0 + 0 + 0 + 1.65 + 0 : ℝ) = 2.65 by norm_num]
    rw [pyRound3_eq_div (n := 2650) (by norm_num) (by norm_num)]
    norm_num

/-- C2 counterexample: with every component built in the current year the
buyer divisor is exactly 1.0 and `calc_staleness` classifies urgency as
"none", while the claim's band [1.0, 1.5) demands "low"; moreover at a
collective factor of exactly 2 the reported divisor is the rounded 2.297, not
2^1.2, and the reported percent retained is the rounded 43.5, not
100/2^1.2. -/
theorem staleness_urgency_cex :
    ((calc_staleness 2000 2000 2000 2000 2000).buyer_divisor = 1 ∧
     (calc_staleness 2000 2000 2000 2000 2000).urgency = "none" ∧
     "none" ≠ "low") ∧
    (staleness_collective 2020 2020 2006 2004 2004 = 2 ∧
     (calc_staleness 2020 2020 2006 2004 2004).buyer_divisor = 2.297 ∧
     (2.297 : ℝ) ≠ (2 : ℝ) ^ (1.2 : ℝ)) ∧
    ((calc_staleness 2020 2020 2006 2004 2004).percent_retained = 43.5 ∧
     (43.5 : ℝ) ≠ 100.0 / (2 : ℝ) ^ (1.2 : ℝ)) := by
  have hcomp0 : ∀ age : ℤ, age ≤ 12 → _component_staleness age = 0 := by
    intro age h
    unfold _component_staleness COMPONENT_SAFE_AGE COMPONENT_STEEP_AGE
    rw [if_neg (by omega), if_neg (by omega)]
    norm_num
  have hveh0 : ∀ age : ℤ, age + 4 ≤ 9 → _vehicle_staleness age = 0 := by
    intro age h
    unfold _vehicle_staleness VEHICLE_AGE_OFFSET VEHICLE_STALENESS_TRIGGER
    rw [if_pos (by omega)]
  have hcomp14 : _component_staleness 14 = 0.1 := by
    unfold _component_staleness COMPONENT_SAFE_AGE COMPONENT_STEEP_AGE
      COMPONENT_PENALTY_RATE COMPONENT_STEEP_RATE
    rw [if_pos (by omega), if_neg (by omega)]
    norm_num
  have hcomp16 : _component_staleness 16 = 0.45 := by
    unfold _component_staleness COMPONENT_SAFE_AGE COMPONENT_STEEP_AGE
      COMPONENT_PENALTY_RATE COMPONENT_STEEP_RATE
    rw [if_pos (by omega), if_pos (by omega)]
    norm_num
  have hdiv1 : staleness_buyer_divisor 1.0 = 1.0 := by
    unfold staleness_buyer_divisor
    rw [if_neg (by norm_num)]
  have hdiv2 : staleness_buyer_divisor 2.0 = (2 : ℝ) ^ (1.2 : ℝ) := by
    unfold staleness_buyer_divisor BUYER_DIVISOR_EXPONENT
    rw [if_pos (by norm_num)]
    norm_num
  have hb := two_rpow_bounds
  have hxpos : 0 < (2 : ℝ) ^ (1.2 : ℝ) := Real.rpow_pos_of_pos (by norm_num) _
  refine ⟨⟨?_, ?_, by decide⟩, ⟨?_, ?_, ne_of_lt hb.1⟩, ⟨?_, ?_⟩⟩
  · simp only [calc_staleness]
    rw [show (2000 - 2000 : ℤ) = 0 by norm_num, hveh0 0 (by norm_num),
      hcomp0 0 (by norm_num)]
    rw [show (1.0 + 0 + 0 + 0 + 0 : ℝ) = 1.0 by norm_num, hdiv1]
    rw [pyRound3_eq_div (n := 1000) (by norm_num) (by norm_num)]
    norm_num
  · simp only [calc_staleness]
    rw [show (2000 - 2000 : ℤ) = 0 by norm_num, hveh0 0 (by norm_num),
      hcomp0 0 (by norm_num)]
    rw [show (1.0 + 0 + 0 + 0 + 0 : ℝ) = 1.0 by norm_num, hdiv1]
    unfold staleness_urgency URGENCY_CRITICAL URGENCY_HIGH URGENCY_MEDIUM URGENCY_LOW
    rw [if_neg (by norm_num), if_neg (by norm_num), if_neg (by norm_num),
      if_neg (by norm_num)]
  · unfold staleness_collective
    rw [show (2020 - 2020 : ℤ) = 0 by norm_num, show (2020 - 2006 : ℤ) = 14 by norm_num,
      show (2020 - 2004 : ℤ) = 16 by norm_num, hveh0 0 (by norm_num), hcomp14, hcomp16]
    norm_num
  · simp only [calc_staleness]
    rw [show (2020 - 2020 : ℤ) = 0 by norm_num, show (2020 - 2006 : ℤ) = 14 by norm_num,
      show (2020 - 2004 : ℤ) = 16 by norm_num, hveh0 0 (by norm_num), hcomp14, hcomp16]
    rw [show (1.0 + 0 + 0.1 + 0.45 + 0.45 : ℝ) = 2.0 by norm_num, hdiv2]
    rw [pyRound3_eq_div (n := 2297) (by nlinarith [hb.1, hb.2]) (by nlinarith [hb.1, hb.2])]
    norm_num
  · simp only [calc_staleness]
    rw [show (2020 - 2020 : ℤ) = 0 by norm_num, show (2020 - 2006 : ℤ) = 14 by norm_num,
      show (2020 - 2004 : ℤ) = 16 by norm_num, hveh0 0 (by norm_num), hcomp14, hcomp16]
    rw [show (1.0 + 0 + 0.1 + 0.45 + 0.45 : ℝ) = 2.0 by norm_num, hdiv2]
    rw [if_pos hxpos]
    rw [pyRound1_eq_div (n := 435) ?h1 ?h2]
    · norm_num
    case h1 =>
      rw [div_mul_eq_mul_div, le_div_iff₀ hxpos]
      nlinarith [hb.2]
    case h2 =>
      rw [div_mul_eq_mul_div, div_lt_iff₀ hxpos]
      nlinarith [hb.1]
  · have h100 : (43.5 : ℝ) < 100.0 / (2 : ℝ) ^ (1.2 : ℝ) := by
      rw [lt_div_iff₀ hxpos]
      nlinarith [hb.2]
    exact ne_of_lt h100

/-- C2 (amended): in `calc_staleness` the unrounded buyer divisor is
collective^1.2 when the collective factor exceeds 1 and 1 otherwise; the
reported divisor is that value rounded to 3 decimals, the reported percent
retained is 100/divisor rounded to 1 decimal, and the urgency of a divisor d
is "none" for d ≤ 1.0, "low" for 1.0 < d < 1.5, "medium" for 1.5 ≤ d < 2.0,
"high" for 2.0 ≤ d < 3.0 and "critical" for d ≥ 3.0 (a divisor of exactly 1.0
classifies as "none"). -/
theorem staleness_report_spec :
    (∀ cy y1 y2 y3 y4 : ℤ,
      (calc_staleness cy y1 y2 y3 y4).buyer_divisor =
        pyRound3 (staleness_buyer_divisor (staleness_collective cy y1 y2 y3 y4)) ∧
      (calc_staleness cy y1 y2 y3 y4).percent_retained =
        pyRound1 (100.0 / staleness_buyer_divisor (staleness_collective cy y1 y2 y3 y4)) ∧
      (calc_staleness cy y1 y2 y3 y4).urgency =
        staleness_urgency (staleness_buyer_divisor (staleness_collective cy y1 y2 y3 y4))) ∧
    (∀ c : ℝ, 1 < c → staleness_buyer_divisor c = c ^ (1.2 : ℝ)) ∧
    (∀ c : ℝ, c ≤ 1 → staleness_buyer_divisor c = 1) ∧
    (∀ d : ℝ, d ≤ 1 → staleness_urgency d = "none") ∧
    (∀ d : ℝ, 1 < d → d < 1.5 → staleness_urgency d = "low") ∧
    (∀ d : ℝ, 1.5 ≤ d → d < 2 → staleness_urgency d = "medium") ∧
    (∀ d : ℝ, 2 ≤ d → d < 3 → staleness_urgency d = "high") ∧
    (∀ d : ℝ, 3 ≤ d → staleness_urgency d = "critical") := by
  refine ⟨?_, ?_, ?_, ?_, ?_, ?_, ?_, ?_⟩
  · intro cy y1 y2 y3 y4
    refine ⟨?_, ?_, ?_⟩
    · simp only [calc_staleness, staleness_collective]
    · simp only [calc_staleness, staleness_collective]
      rw [if_pos (staleness_buyer_divisor_pos _)]
    · simp only [calc_staleness, staleness_collective]
  · intro c h
    unfold staleness_buyer_divisor BUYER_DIVISOR_EXPONENT
    rw [if_pos (show c > 1.0 by norm_num; linarith)]
  · intro c h
    unfold staleness_buyer_divisor
    rw [if_neg (show ¬c > 1.0 by norm_num; linarith)]
    norm_num
  · intro d h
    unfold staleness_urgency URGENCY_CRITICAL URGENCY_HIGH URGENCY_MEDIUM URGENCY_LOW
    split_ifs <;> first | rfl | linarith
  · intro d h1 h2
    unfold staleness_urgency URGENCY_CRITICAL URGENCY_HIGH URGENCY_MEDIUM URGENCY_LOW
    split_ifs <;> first | rfl | linarith
  · intro d h1 h2
    unfold staleness_urgency URGENCY_CRITICAL URGENCY_HIGH URGENCY_MEDIUM URGENCY_LOW
    split_ifs <;> first | rfl | linarith
  · intro d h1 h2
    unfold staleness_urgency URGENCY_CRITICAL URGENCY_HIGH URGENCY_MEDIUM URGENCY_LOW
    split_ifs <;> first | rfl | linarith
  · intro d h
    unfold staleness_urgency URGENCY_CRITICAL
    rw [if_pos (by linarith)]

/-- C4: `estimate_modification_cost` totals 15% with no change, 25% for an
engine change (gearbox auto-included, also when both change), 20% for a
gearbox-only change, and always 100% for a chassis change; design cost
100000 gives 25000 for an engine-only change and 100000 for a chassis
change. -/
theorem modification_cost_spec :
    (∀ (cost : ℤ) (e g : Bool),
      (estimate_modification_cost cost e g true).total_percent = 100 ∧
      (estimate_modification_cost cost e g true).estimated_cost = cost) ∧
    (∀ (cost : ℤ) (g : Bool),
      (estimate_modification_cost cost true g false).total_percent = 25) ∧
    (∀ cost : ℤ, (estimate_modification_cost cost false true false).total_percent = 20) ∧
    (∀ cost : ℤ, (estimate_modification_cost cost false false false).total_percent = 15) ∧
    (estimate_modification_cost 100000 true false false).estimated_cost = 25000 ∧
    (estimate_modification_cost 100000 false false true).estimated_cost = 100000 := by
  refine ⟨?_, ?_, ?_, ?_, ?_, ?_⟩
  · intro cost e g
    constructor <;>
      simp [estimate_modification_cost, MOD_CHASSIS_PERCENT]
  · intro cost g
    cases g <;>
      simp [estimate_modification_cost, MOD_BASE_PERCENT, MOD_ENGINE_PERCENT,
        MOD_GEARBOX_PERCENT]
  · intro cost
    simp [estimate_modification_cost, MOD_BASE_PERCENT, MOD_GEARBOX_PERCENT]
  · intro cost
    simp [estimate_modification_cost, MOD_BASE_PERCENT]
  · simp only [estimate_modification_cost, MOD_BASE_PERCENT, MOD_ENGINE_PERCENT,
      MOD_GEARBOX_PERCENT]
    norm_num
    rw [pyRound_of_lt_half (n := 25000) (by norm_num) (by norm_num)]
  · simp [estimate_modification_cost]

/-- C5 counterexample: the reported overflow percentage is rounded to one
decimal; with engine torque 4 and gearbox limit 3 it is 33.3, not the exact
(overflow/gearbox)·100 = 100/3 the claim states. -/
theorem torque_compat_cex :
    (check_torque_compatibility 4 3).overflow_percent = some (33.3 : ℝ) ∧
    (33.3 : ℝ) ≠ ((4 : ℝ) - 3) / 3 * 100 := by
  constructor
  · simp only [check_torque_compatibility]
    rw [if_neg (by norm_num), if_pos (by norm_num)]
    simp only [Option.some.injEq]
    rw [show ((4 - 3 : ℤ) : ℝ) / ((3 : ℤ) : ℝ) * 100 = 100 / 3 by norm_num]
    rw [pyRound1_eq_div (n := 333) (by norm_num) (by norm_num)]
    norm_num
  · norm_num

/-- C5 (amended): for gearbox limit g > 0 an overflow e − g > 0 is reported
incompatible with overflow percentage ((e−g)/g)·100 rounded to one decimal
and a warning; e − g ≤ 0 is compatible with headroom ((g−e)/g)·100 rounded to
one decimal and no warning, so e = g yields headroom 0%; g = 0 is compatible
with a warning and overflow percent 0; engine 300 against gearbox 250 gives
overflow 50 at 20.0%, incompatible. -/
theorem torque_compat_spec :
    (∀ e g : ℤ, 0 < g → 0 < e - g →
      (check_torque_compatibility e g).compatible = false ∧
      (check_torque_compatibility e g).overflow_nm = some (e - g) ∧
      (check_torque_compatibility e g).overflow_percent =
        some (pyRound1 (((e : ℝ) - g) / g * 100)) ∧
      (check_torque_compatibility e g).has_warning = true) ∧
    (∀ e g : ℤ, 0 < g → e - g ≤ 0 →
      (check_torque_compatibility e g).compatible = true ∧
      (check_torque_compatibility e g).headroom_nm = some (g - e) ∧
      (check_torque_compatibility e g).headroom_percent =
        some (pyRound1 (((g : ℝ) - e) / g * 100)) ∧
      (check_torque_compatibility e g).has_warning = false) ∧
    (∀ g : ℤ, 0 < g →
      (check_torque_compatibility g g).compatible = true ∧
      (check_torque_compatibility g g).headroom_percent = some 0 ∧
      (check_torque_compatibility g g).has_warning = false) ∧
    (∀ e : ℤ,
      (check_torque_compatibility e 0).compatible = true ∧
      (check_torque_compatibility e 0).has_warning = true ∧
      (check_torque_compatibility e 0).overflow_percent = some 0) ∧
    ((check_torque_compatibility 300 250).compatible = false ∧
     (check_torque_compatibility 300 250).overflow_nm = some 50 ∧
     (check_torque_compatibility 300 250).overflow_percent = some (20.0 : ℝ)) := by
  have hover : ∀ e g : ℤ, 0 < g → 0 < e - g →
      (check_torque_compatibility e g).compatible = false ∧
      (check_torque_compatibility e g).overflow_nm = some (e - g) ∧
      (check_torque_compatibility e g).overflow_percent =
        some (pyRound1 (((e : ℝ) - g) / g * 100)) ∧
      (check_torque_compatibility e g).has_warning = true := by
    intro e g hg ho
    simp only [check_torque_compatibility]
    rw [if_neg (by omega), if_pos (by omega)]
    refine ⟨rfl, rfl, ?_, rfl⟩
    simp only [Option.some.injEq]
    congr 1
    push_cast
    ring
  have hhead : ∀ e g : ℤ, 0 < g → e - g ≤ 0 →
      (check_torque_compatibility e g).compatible = true ∧
      (check_torque_compatibility e g).headroom_nm = some (g - e) ∧
      (check_torque_compatibility e g).headroom_percent =
        some (pyRound1 (((g : ℝ) - e) / g * 100)) ∧
      (check_torque_compatibility e g).has_warning = false := by
    intro e g hg ho
    simp only [check_torque_compatibility]
    rw [if_neg (by omega), if_neg (by omega)]
    refine ⟨rfl, by rw [show -(e - g) = g - e by ring], ?_, rfl⟩
    simp only [Option.some.injEq]
    congr 1
    push_cast
    ring
  refine ⟨hover, hhead, ?_, ?_, ?_⟩
  · intro g hg
    obtain ⟨h1, _, h3, h4⟩ := hhead g g hg (by omega)
    refine ⟨h1, ?_, h4⟩
    rw [h3]
    rw [show ((g : ℝ) - g) / g * 100 = 0 by ring]
    rw [pyRound1_eq_div (n := 0) (by norm_num) (by norm_num)]
    norm_num
  · intro e
    simp only [check_torque_compatibility]
    rw [if_pos (by omega)]
    exact ⟨rfl, rfl, rfl⟩
  · obtain ⟨h1, h2, h3, _⟩ := hover 300 250 (by norm_num) (by norm_num)
    refine ⟨h1, by rw [h2]; norm_num, ?_⟩
    rw [h3]
    rw [show (((300 : ℤ) : ℝ) - ((250 : ℤ) : ℝ)) / ((250 : ℤ) : ℝ) * 100 = 20 by norm_num]
    rw [pyRound1_eq_div (n := 200) (by norm_num) (by norm_num)]
    norm_num

/-- C6 counterexample: `calc_displacement(70, 80, 4)` is 1232 (the cc value
1231.5072 rounds up), not the 1231 the claim states; and with bore 1, stroke
1, one cylinder the result is 0 although neither bore nor stroke is 0. -/
theorem displacement_cex :
    (calc_displacement 70 80 4 = 1232 ∧ (1232 : ℤ) ≠ 1231) ∧
    (calc_displacement 1 1 1 = 0 ∧ (1 : ℝ) ≠ 0) := by
  refine ⟨⟨?_, by norm_num⟩, ⟨?_, by norm_num⟩⟩
  · simp only [calc_displacement, DISPLACEMENT_CONSTANT]
    rw [pyRound_of_half_lt (n := 1231) (by norm_num) (by norm_num)]
    norm_num
  · simp only [calc_displacement, DISPLACEMENT_CONSTANT]
    rw [pyRound_of_lt_half (n := 0) (by norm_num) (by norm_num)]

/-- C6 (amended): `calc_displacement` returns round(0.7854·(bore/10)²·
(stroke/10)·cylinders); bore 70, stroke 80, 4 cylinders gives 1232; the
unrounded cc value is 0 exactly when bore, stroke or the cylinder count is 0,
though the rounded result can also be 0 for small nonzero dimensions. -/
theorem displacement_spec :
    (∀ (b s : ℝ) (c : ℤ), calc_displacement b s c =
      pyRound (0.7854 * (b / 10) ^ (2 : ℕ) * (s / 10) * (c : ℝ))) ∧
    calc_displacement 70 80 4 = 1232 ∧
    (∀ (b s : ℝ) (c : ℤ),
      0.7854 * (b / 10) ^ (2 : ℕ) * (s / 10) * (c : ℝ) = 0 ↔
        b = 0 ∨ s = 0 ∨ (c : ℝ) = 0) ∧
    calc_displacement 1 1 1 = 0 := by
  refine ⟨?_, ?_, ?_, ?_⟩
  · intro b s c
    simp only [calc_displacement, DISPLACEMENT_CONSTANT]
    norm_num
  · simp only [calc_displacement, DISPLACEMENT_CONSTANT]
    rw [pyRound_of_half_lt (n := 1231) (by norm_num) (by norm_num)]
    norm_num
  · intro b s c
    rw [mul_eq_zero, mul_eq_zero, mul_eq_zero]
    simp only [div_eq_zero_iff, pow_eq_zero_iff (two_ne_zero)]
    norm_num
    tauto
  · simp only [calc_displacement, DISPLACEMENT_CONSTANT]
    rw [pyRound_of_lt_half (n := 0) (by norm_num) (by norm_num)]

/-- C7: `calc_hp` returns round(torque·rpm/5252) for rpm > 0 and 0 for
rpm ≤ 0; torque 200 at 4000 rpm gives 152. -/
theorem hp_spec :
    (∀ t r : ℤ, r ≤ 0 → calc_hp t r = 0) ∧
    (∀ t r : ℤ, 0 < r → calc_hp t r = pyRound ((t : ℝ) * (r : ℝ) / 5252)) ∧
    calc_hp 200 4000 = 152 := by
  refine ⟨?_, ?_, ?_⟩
  · intro t r h
    simp only [calc_hp]
    rw [if_pos h]
  · intro t r h
    simp only [calc_hp, HP_CONVERSION_FACTOR]
    rw [if_neg (by omega)]
    congr 1
    push_cast
    ring
  · simp only [calc_hp, HP_CONVERSION_FACTOR]
    rw [if_neg (by omega)]
    rw [show (((200 * 4000 : ℤ) : ℝ)) / 5252 = 800000 / 5252 by norm_num]
    rw [pyRound_of_lt_half (n := 152) (by norm_num) (by norm_num)]

/-- C8: `_yexp(base, year)` is base^(year−1899) with the reference year fixed
at 1899, and the adjusted-year exponent term is capped at 121 exactly once
the year exceeds 2020. -/
theorem year_exponent_spec :
    (∀ (base : ℝ) (year : ℤ), _yexp base year = base ^ (year - 1899)) ∧
    (∀ year : ℤ, 2020 < year → _adjusted_year year = 121) ∧
    (∀ year : ℤ, year ≤ 2020 → _adjusted_year year = year - 1899) := by
  refine ⟨?_, ?_, ?_⟩
  · intro base year
    simp [_yexp, REF_YEAR]
  · intro year h
    unfold _adjusted_year REF_YEAR
    rw [if_pos (by omega)]
  · intro year h
    unfold _adjusted_year REF_YEAR
    rw [if_neg (by omega)]

/-- C9 counterexample: `estimate_engine_full` writes into its sub-component
dict: starting from an empty dict, the key "stroke_mm" holds the stroke
argument after the call, so the input record is not left unchanged. -/
theorem engine_full_mutation_cex :
    estimate_engine_full_sub_effect (fun _ => none) 80 4 "stroke_mm" = some 80 ∧
    (fun _ => (none : Option ℝ)) "stroke_mm" = none ∧
    some (80 : ℝ) ≠ none := by
  refine ⟨?_, rfl, by simp⟩
  simp [estimate_engine_full_sub_effect, dict_setdefault, dict_set]

/-- C9 (amended): the calculators read their inputs without modifying them
except `estimate_engine_full`, which mutates its sub-component dict in
place: it sets "stroke_mm" to the stroke argument and inserts the cylinder
count under "Cylinders_CylinderCount" only when that key is absent, leaving
every other key unchanged. -/
theorem engine_full_mutation_spec :
    ∀ (sub : SDict) (stroke_mm : ℝ) (cylinders : ℤ),
      estimate_engine_full_sub_effect sub stroke_mm cylinders "stroke_mm" =
        some stroke_mm ∧
      (sub "Cylinders_CylinderCount" = none →
        estimate_engine_full_sub_effect sub stroke_mm cylinders "Cylinders_CylinderCount" =
          some (cylinders : ℝ)) ∧
      (∀ v : ℝ, sub "Cylinders_CylinderCount" = some v →
        estimate_engine_full_sub_effect sub stroke_mm cylinders "Cylinders_CylinderCount" =
          some v) ∧
      (∀ k : String, k ≠ "stroke_mm" → k ≠ "Cylinders_CylinderCount" →
        estimate_engine_full_sub_effect sub stroke_mm cylinders k = sub k) := by
  intro sub stroke_mm cylinders
  refine ⟨?_, ?_, ?_, ?_⟩
  · simp [estimate_engine_full_sub_effect, dict_setdefault, dict_set]
  · intro h
    simp [estimate_engine_full_sub_effect, dict_setdefault, dict_set, h]
  · intro v h
    simp [estimate_engine_full_sub_effect, dict_setdefault, dict_set, h]
  · intro k h1 h2
    simp [estimate_engine_full_sub_effect, dict_setdefault, dict_set, h1, h2]

/-- C3: every rating function of the engine, chassis, gearbox and vehicle
calculators stays within its declared bound — [0, 100] in general, [1, 100]
for engine smoothness and vehicle fuel — for every slider set, sub-component
dict, year and skill (slider extremes 0 and 1 included). -/
theorem ratings_within_bounds :
    (∀ (torque : ℝ) (year cylinders : ℤ),
      0 ≤ calc_engine_power_rating torque year cylinders ∧
      calc_engine_power_rating torque year cylinders ≤ 100) ∧
    (∀ mpg : ℝ,
      0 ≤ calc_engine_fuel_eco_rating mpg ∧ calc_engine_fuel_eco_rating mpg ≤ 100) ∧
    (∀ (sliders sub : SDict) (year skill : ℤ) (rpm stroke_mm : ℝ),
      0 ≤ calc_engine_reliability_rating sliders sub year skill rpm stroke_mm ∧
      calc_engine_reliability_rating sliders sub year skill rpm stroke_mm ≤ 100) ∧
    (∀ (sliders sub : SDict) (cylinders skill : ℤ),
      1 ≤ calc_engine_smoothness_rating sliders sub cylinders skill ∧
      calc_engine_smoothness_rating sliders sub cylinders skill ≤ 100) ∧
    (∀ (sliders sub : SDict) (skill : ℤ),
      0 ≤ calc_chassis_comfort_rating sliders sub skill ∧
      calc_chassis_comfort_rating sliders sub skill ≤ 100) ∧
    (∀ (sliders sub : SDict) (skill : ℤ),
      0 ≤ calc_chassis_performance_rating sliders sub skill ∧
      calc_chassis_performance_rating sliders sub skill ≤ 100) ∧
    (∀ (sliders sub : SDict) (skill : ℤ),
      0 ≤ calc_chassis_strength_rating sliders sub skill ∧
      calc_chassis_strength_rating sliders sub skill ≤ 100) ∧
    (∀ (sliders sub : SDict) (skill : ℤ),
      0 ≤ calc_chassis_dependability_rating sliders sub skill ∧
      calc_chassis_dependability_rating sliders sub skill ≤ 100) ∧
    (∀ (torque_capacity : ℝ) (year : ℤ),
      0 ≤ calc_gearbox_power_rating torque_capacity year ∧
      calc_gearbox_power_rating torque_capacity year ≤ 100) ∧
    (∀ (sliders sub : SDict) (gears year skill : ℤ),
      0 ≤ calc_gearbox_fuel_rating sliders sub gears year skill ∧
      calc_gearbox_fuel_rating sliders sub gears year skill ≤ 100) ∧
    (∀ (sliders sub : SDict) (gears year skill : ℤ),
      0 ≤ calc_gearbox_performance_rating sliders sub gears year skill ∧
      calc_gearbox_performance_rating sliders sub gears year skill ≤ 100) ∧
    (∀ (sliders sub : SDict) (gears year skill : ℤ),
      0 ≤ calc_gearbox_reliability_rating sliders sub gears year skill ∧
      calc_gearbox_reliability_rating sliders sub gears year skill ≤ 100) ∧
    (∀ (sliders sub : SDict) (skill : ℤ),
      0 ≤ calc_gearbox_comfort_rating sliders sub skill ∧
      calc_gearbox_comfort_rating sliders sub skill ≤ 100) ∧
    (∀ engine_r chassis_r gearbox_r v_sliders specs : SDict,
      0 ≤ calc_vehicle_performance_rating engine_r chassis_r gearbox_r v_sliders specs ∧
      calc_vehicle_performance_rating engine_r chassis_r gearbox_r v_sliders specs ≤ 100) ∧
    (∀ (engine_r chassis_r gearbox_r v_sliders specs : SDict) (skill : ℤ),
      0 ≤ calc_vehicle_luxury_rating engine_r chassis_r gearbox_r v_sliders specs skill ∧
      calc_vehicle_luxury_rating engine_r chassis_r gearbox_r v_sliders specs skill ≤ 100) ∧
    (∀ (chassis_r v_sliders specs : SDict) (skill : ℤ),
      0 ≤ calc_vehicle_safety_rating chassis_r v_sliders specs skill ∧
      calc_vehicle_safety_rating chassis_r v_sliders specs skill ≤ 100) ∧
    (∀ fuel_mileage : ℝ,
      1 ≤ calc_vehicle_fuel_rating fuel_mileage ∧
      calc_vehicle_fuel_rating fuel_mileage ≤ 100) ∧
    (∀ v_sliders specs : SDict,
      0 ≤ calc_vehicle_cargo_rating v_sliders specs ∧
      calc_vehicle_cargo_rating v_sliders specs ≤ 100) ∧
    (∀ (engine_r chassis_r gearbox_r v_sliders : SDict) (skill : ℤ)
        (tc : Bool) (tr : ℝ),
      0 ≤ calc_vehicle_quality_rating engine_r chassis_r gearbox_r v_sliders skill tc tr ∧
      calc_vehicle_quality_rating engine_r chassis_r gearbox_r v_sliders skill tc tr ≤ 100) ∧
    (∀ (engine_r chassis_r gearbox_r v_sliders : SDict) (tc : Bool) (tr : ℝ),
      0 ≤ calc_vehicle_dependability_rating engine_r chassis_r gearbox_r v_sliders tc tr ∧
      calc_vehicle_dependability_rating engine_r chassis_r gearbox_r v_sliders tc tr ≤ 100) := by
  refine ⟨?_, ?_, ?_, ?_, ?_, ?_, ?_, ?_, ?_, ?_, ?_, ?_, ?_, ?_, ?_, ?_, ?_, ?_, ?_, ?_⟩
  · intro torque year cylinders
    simp only [calc_engine_power_rating]
    split_ifs
    · norm_num
    · exact clamp01_bounds _
    · exact clamp01_bounds _
  · intro mpg
    simp only [calc_engine_fuel_eco_rating]
    exact clamp01_bounds _
  · intro sliders sub year skill rpm stroke_mm
    simp only [calc_engine_reliability_rating]
    exact clamp01_bounds _
  · intro sliders sub cylinders skill
    simp only [calc_engine_smoothness_rating]
    exact clamp1_bounds _
  · intro sliders sub skill
    simp only [calc_chassis_comfort_rating]
    exact clamp01_bounds _
  · intro sliders sub skill
    simp only [calc_chassis_performance_rating]
    exact clamp01_bounds _
  · intro sliders sub skill
    simp only [calc_chassis_strength_rating]
    exact clamp01_bounds _
  · intro sliders sub skill
    simp only [calc_chassis_dependability_rating]
    exact clamp01_bounds _
  · intro torque_capacity year
    simp only [calc_gearbox_power_rating]
    split_ifs
    · norm_num
    · exact clamp01_bounds _
  · intro sliders sub gears year skill
    simp only [calc_gearbox_fuel_rating]
    exact clamp01_bounds _
  · intro sliders sub gears year skill
    simp only [calc_gearbox_performance_rating]
    exact clamp01_bounds _
  · intro sliders sub gears year skill
    simp only [calc_gearbox_reliability_rating]
    exact clamp01_bounds _
  · intro sliders sub skill
    simp only [calc_gearbox_comfort_rating]
    exact clamp01_bounds _
  · intro engine_r chassis_r gearbox_r v_sliders specs
    simp only [calc_vehicle_performance_rating]
    exact clamp01_bounds _
  · intro engine_r chassis_r gearbox_r v_sliders specs skill
    simp only [calc_vehicle_luxury_rating]
    exact clamp01_bounds _
  · intro chassis_r v_sliders specs skill
    simp only [calc_vehicle_safety_rating]
    exact clamp01_bounds _
  · intro fuel_mileage
    simp only [calc_vehicle_fuel_rating]
    exact clamp1_bounds _
  · intro v_sliders specs
    simp only [calc_vehicle_cargo_rating]
    exact clamp01_bounds _
  · intro engine_r chassis_r gearbox_r v_sliders skill tc tr
    simp only [calc_vehicle_quality_rating]
    exact clamp01_bounds _
  · intro engine_r chassis_r gearbox_r v_sliders tc tr
    simp only [calc_vehicle_dependability_rating]
    exact clamp01_bounds _

/-- C10: hard floors at return, for all inputs: engine RPM never drops below
25 (so the rounded RPM fed to `calc_hp` in the engine pipeline is positive
and its rpm ≤ 0 sentinel branch cannot fire), chassis weight ≥ 10 kg, gearbox
weight ≥ 5 lbs, and every torque, unit-cost and design-cost function is
non-negative. -/
theorem outputs_floor_spec :
    (∀ (sliders sub : SDict) (year skill : ℤ),
      25 ≤ calc_engine_rpm sliders sub year skill ∧
      0 < pyRound (calc_engine_rpm sliders sub year skill)) ∧
    (∀ (sliders sub : SDict) (year : ℤ) (global_weight : ℝ),
      10 ≤ calc_chassis_weight sliders sub year global_weight) ∧
    (∀ (sliders sub : SDict) (gears : ℤ),
      5 ≤ calc_gearbox_weight sliders sub gears) ∧
    (∀ (sliders sub : SDict) (year skill : ℤ) (bore_mm stroke_mm : ℝ) (cylinders : ℤ),
      0 ≤ calc_engine_torque sliders sub year skill bore_mm stroke_mm cylinders) ∧
    (∀ (sliders sub : SDict) (gears year skill : ℤ),
      0 ≤ calc_gearbox_torque_capacity sliders sub gears year skill) ∧
    (∀ (sliders sub : SDict) (year skill cylinders : ℤ) (ir cpr : ℝ),
      0 ≤ calc_engine_unit_cost sliders sub year skill cylinders ir cpr) ∧
    (∀ (sliders sub : SDict) (year cylinders : ℤ) (ir : ℝ),
      0 ≤ calc_engine_design_cost sliders sub year cylinders ir) ∧
    (∀ (sliders sub : SDict) (year skill : ℤ) (cpr : ℝ),
      0 ≤ calc_chassis_unit_cost sliders sub year skill cpr) ∧
    (∀ (sliders sub : SDict) (year : ℤ),
      0 ≤ calc_chassis_design_cost sliders sub year) ∧
    (∀ (sliders sub : SDict) (gears year skill : ℤ) (ir cpr : ℝ),
      0 ≤ calc_gearbox_unit_cost sliders sub gears year skill ir cpr) ∧
    (∀ (sliders sub : SDict) (gears year : ℤ),
      0 ≤ calc_gearbox_design_cost sliders sub gears year) ∧
    (∀ (v_sliders : SDict) (year skill : ℤ) (euc cuc guc : ℝ) (wealth : ℤ) (ir cpr : ℝ),
      0 ≤ calc_vehicle_unit_cost v_sliders year skill euc cuc guc wealth ir cpr) ∧
    (∀ (v_sliders : SDict) (year : ℤ) (euc cuc guc : ℝ),
      0 ≤ calc_vehicle_design_cost v_sliders year euc cuc guc) := by
  refine ⟨?_, ?_, ?_, ?_, ?_, ?_, ?_, ?_, ?_, ?_, ?_, ?_, ?_⟩
  · intro sliders sub year skill
    have h25 : 25 ≤ calc_engine_rpm sliders sub year skill := by
      simp only [calc_engine_rpm]
      exact le_trans (by norm_num) (le_max_right _ _)
    refine ⟨h25, ?_⟩
    have := le_pyRound_of_le (n := 25) (by exact_mod_cast h25)
    omega
  · intro sliders sub year global_weight
    simp only [calc_chassis_weight]
    exact le_trans (by norm_num) (le_max_right _ _)
  · intro sliders sub gears
    simp only [calc_gearbox_weight]
    exact le_trans (by norm_num) (le_max_right _ _)
  · intro sliders sub year skill bore_mm stroke_mm cylinders
    simp only [calc_engine_torque]
    exact le_trans (by norm_num) (le_max_right _ _)
  · intro sliders sub gears year skill
    simp only [calc_gearbox_torque_capacity]
    exact le_trans (by norm_num) (le_max_right _ _)
  · intro sliders sub year skill cylinders ir cpr
    simp only [calc_engine_unit_cost]
    exact le_trans (by norm_num) (le_max_right _ _)
  · intro sliders sub year cylinders ir
    simp only [calc_engine_design_cost]
    exact le_trans (by norm_num) (le_max_right _ _)
  · intro sliders sub year skill cpr
    simp only [calc_chassis_unit_cost]
    exact le_trans (by norm_num) (le_max_right _ _)
  · intro sliders sub year
    simp only [calc_chassis_design_cost]
    exact le_trans (by norm_num) (le_max_right _ _)
  · intro sliders sub gears year skill ir cpr
    simp only [calc_gearbox_unit_cost]
    exact le_trans (by norm_num) (le_max_right _ _)
  · intro sliders sub gears year
    simp only [calc_gearbox_design_cost]
    exact le_trans (by norm_num) (le_max_right _ _)
  · intro v_sliders year skill euc cuc guc wealth ir cpr
    simp only [calc_vehicle_unit_cost]
    exact le_trans (by norm_num) (le_max_right _ _)
  · intro v_sliders year euc cuc guc
    simp only [calc_vehicle_design_cost]
    exact le_trans (by norm_num) (le_max_right _ _)

end DesignFormulas
